import Mathlib

/-!
# csi-rclone: the rclone adapter (`pkg/rclone/rclone.go`)

A shallow embedding of the adapter's request building, response checking, naming and
volume lookup, with the properties of its specification stated over it.

Conventions of the embedding.

* A Go `string` that reaches the adapter through the CSI and Kubernetes APIs is valid UTF-8 and is
  a Lean `String`; where the source works on the bytes of a string (`len`, slicing), the bytes are
  a `List Nat` obtained with `utf8Bytes`.
* A Go `map[string]string` is an association list read with `mapGet` and written with `mapSet`
  (one entry per key, as in a Go map).
* A Go `error` is a `GoError`; a nil error is `none`.
* The libraries the source calls are not part of the repository. What they compute is either
  modelled after their documented behaviour (`encoding/json` storing into a struct, `strconv.Quote`,
  `strings.ToLower`, UTF-8, the key lookup of `ini.v1` with its parent sections) or taken as a
  parameter (the INI parser, the JSON syntax check, the Unicode tables, the HTTP round trip, the
  file system, the cluster client).
-/

namespace CsiRclone

/-! ## Errors -/

/-- Go error values as the adapter sees them. -/
inductive GoError where
  /-- The package-level sentinel `ErrVolumeNotFound = errors.New("volume is not found")`. -/
  | volumeNotFound
  /-- An error made by `fmt.Errorf` without `%w`: only the text. -/
  | errorf (msg : String)
  /-- An error made by `fmt.Errorf(pre + "%w", cause)`. -/
  | wrapped (pre : String) (cause : GoError)
  /-- An error value handed back by a library or by the cluster; `notFound` is what
  `apierrors.IsNotFound` answers for it. -/
  | external (msg : String) (notFound : Bool)
  deriving DecidableEq, Repr

/-- The text of `err.Error()`. -/
def GoError.Error : GoError → String
  | .volumeNotFound => "volume is not found"
  | .errorf msg => msg
  | .wrapped pre cause => pre ++ cause.Error
  | .external msg _ => msg

/-- The package variable `ErrVolumeNotFound`. -/
def ErrVolumeNotFound : GoError := GoError.volumeNotFound

/-- Whether an error, or one it wraps with `%w`, carries the API status reason `NotFound`. -/
def GoError.reasonNotFound : GoError → Bool
  | .external _ nf => nf
  | .wrapped _ cause => cause.reasonNotFound
  | _ => false

/-- The function `apierrors.IsNotFound`; it answers `false` for a nil error. -/
def IsNotFound : Option GoError → Bool
  | none => false
  | some err => err.reasonNotFound

/-! ## Go maps -/

/-- A Go `map[string]string`. -/
abbrev GoMap := List (String × String)

/-- The read `m[k]` with the comma-ok form: the value stored under `k`, if any. -/
def mapGet? (m : GoMap) (k : String) : Option String :=
  match m with
  | [] => none
  | (k1, v) :: rest => if k1 = k then some v else mapGet? rest k

/-- The read `m[k]`: the zero value `""` when the key is absent. -/
def mapGet (m : GoMap) (k : String) : String :=
  (mapGet? m k).getD ""

/-- The write `m[k] = v`: replaces the entry of `k` or adds one. -/
def mapSet (m : GoMap) (k v : String) : GoMap :=
  match m with
  | [] => [(k, v)]
  | (k1, v1) :: rest => if k1 = k then (k1, v) :: rest else (k1, v1) :: mapSet rest k v

/-! ## UTF-8 and `strings.ToLower` -/

/-- The UTF-8 encoding of one code point (`utf8.AppendRune` on a valid rune). -/
def utf8EncodeRune (c : Nat) : List Nat :=
  if c < 0x80 then [c]
  else if c < 0x800 then [0xC0 + c / 64, 0x80 + c % 64]
  else if c < 0x10000 then [0xE0 + c / 4096, 0x80 + c / 64 % 64, 0x80 + c % 64]
  else [0xF0 + c / 262144, 0x80 + c / 4096 % 64, 0x80 + c / 64 % 64, 0x80 + c % 64]

/-- The bytes of a Go string holding the text `s`. -/
def utf8Bytes (s : String) : List Nat :=
  s.data.flatMap (fun c => utf8EncodeRune c.toNat)

/-- A UTF-8 continuation byte `0x80..0xBF`. -/
def isCont (b : Nat) : Bool := 0x80 ≤ b && b ≤ 0xBF

/-- The rune `utf8.RuneError`, U+FFFD. -/
def RuneError : Nat := 0xFFFD

/-- The rune and width that `utf8.DecodeRuneInString` returns at the head of a non-empty byte
sequence: an ill-formed or truncated sequence gives `(RuneError, 1)`. Overlong forms, surrogates
and values above U+10FFFF are ill-formed, by the ranges of the second byte. -/
def decodeRune : List Nat → Nat × Nat
  | [] => (RuneError, 0)
  | b0 :: rest =>
    if b0 < 0x80 then (b0, 1)
    else if 0xC2 ≤ b0 ∧ b0 ≤ 0xDF then
      match rest with
      | b1 :: _ => if isCont b1 then ((b0 - 0xC0) * 64 + (b1 - 0x80), 2) else (RuneError, 1)
      | _ => (RuneError, 1)
    else if 0xE0 ≤ b0 ∧ b0 ≤ 0xEF then
      match rest with
      | b1 :: b2 :: _ =>
        let lo := if b0 = 0xE0 then 0xA0 else 0x80
        let hi := if b0 = 0xED then 0x9F else 0xBF
        if lo ≤ b1 ∧ b1 ≤ hi ∧ isCont b2 then
          ((b0 - 0xE0) * 4096 + (b1 - 0x80) * 64 + (b2 - 0x80), 3)
        else (RuneError, 1)
      | _ => (RuneError, 1)
    else if 0xF0 ≤ b0 ∧ b0 ≤ 0xF4 then
      match rest with
      | b1 :: b2 :: b3 :: _ =>
        let lo := if b0 = 0xF0 then 0x90 else 0x80
        let hi := if b0 = 0xF4 then 0x8F else 0xBF
        if lo ≤ b1 ∧ b1 ≤ hi ∧ isCont b2 ∧ isCont b3 then
          ((b0 - 0xF0) * 262144 + (b1 - 0x80) * 4096 + (b2 - 0x80) * 64 + (b3 - 0x80), 4)
        else (RuneError, 1)
      | _ => (RuneError, 1)
    else (RuneError, 1)

/-- The runes a Go `for _, c := range s` loop sees, `skip` being the number of bytes still
belonging to the rune decoded last. -/
def rangeRunes : Nat → List Nat → List Char
  | _, [] => []
  | 0, b :: rest => Char.ofNat (decodeRune (b :: rest)).1 :: rangeRunes ((decodeRune (b :: rest)).2 - 1) rest
  | k + 1, _ :: rest => rangeRunes k rest

/-- The function `unicode.ToLower`: on ASCII it is the letter shift in the source of the
`unicode` package; beyond ASCII it is read from the Unicode case tables, the parameter `table`. -/
def unicodeToLower (table : Char → Char) (c : Char) : Char :=
  if c.toNat ≤ 0x7F then
    (if 65 ≤ c.toNat ∧ c.toNat ≤ 90 then Char.ofNat (c.toNat + 32) else c)
  else table c

/-- The function `strings.ToLower` on the bytes of a Go string: `strings.Map(unicode.ToLower, s)`,
which maps every rune of the range loop and writes an ill-formed byte as U+FFFD. (The ASCII fast
path of the library returns the same string.) The result is valid UTF-8. -/
def stringsToLower (table : Char → Char) (s : List Nat) : String :=
  String.mk ((rangeRunes 0 s).map (unicodeToLower table))

/-! ## Volumes and names -/

/-- The struct `RcloneVolume`. -/
structure RcloneVolume where
  Remote : String := ""
  RemotePath : String := ""
  ID : String := ""
  deriving DecidableEq, Repr

/-- The method `RcloneVolume.deploymentName`: `len` and the slice `volumeID[:63]` count bytes. -/
def RcloneVolume.deploymentName (table : Char → Char) (r : RcloneVolume) : String :=
  let volumeID := utf8Bytes ("rclone-mounter-" ++ r.ID)
  let volumeID := if volumeID.length > 63 then volumeID.take 63 else volumeID
  stringsToLower table volumeID

/-! ## JSON values and `json.Unmarshal` into a struct -/

/-- A JSON text that passed the validity scan of `encoding/json`, as its tree. A number keeps its
literal; the members of an object keep their order and their duplicates. -/
inductive JValue where
  | null
  | bool (b : Bool)
  | num (lit : String)
  | str (s : String)
  | arr (items : List JValue)
  | obj (members : List (String × JValue))

/-- The word `UnmarshalTypeError.Value` uses for a JSON value. -/
def JValue.kindName : JValue → String
  | .null => "null"
  | .bool _ => "bool"
  | .num _ => "number"
  | .str _ => "string"
  | .arr _ => "array"
  | .obj _ => "object"

/-- The function `foldRune` of `encoding/json` as far as it decides a match with an ASCII field
name: an ASCII letter goes to upper case, U+017F to `S` and U+212A to `K`. (Any other rune folds
to a rune outside ASCII and is left in place here: a key holding one matches no ASCII name either
way.) -/
def foldRune (c : Char) : Char :=
  if 97 ≤ c.toNat ∧ c.toNat ≤ 122 then Char.ofNat (c.toNat - 32)
  else if c.toNat = 0x17F then Char.ofNat 83
  else if c.toNat = 0x212A then Char.ofNat 75
  else c

/-- The function `foldName` of `encoding/json`: the key used for case-insensitive matching. -/
def foldName (s : String) : String :=
  String.mk (s.data.map foldRune)

/-- The field a JSON object key selects among the exported fields `names` of a struct: the field
of exactly that JSON name, else the first field whose folded name is the folded key. -/
def findField {F : Type} (names : List (F × String)) (key : String) : Option F :=
  match names.find? (fun p => p.2 = key) with
  | some p => some p.1
  | none => (names.find? (fun p => foldName p.2 = foldName key)).map (fun p => p.1)

/-- The digits of a decimal literal as a number; `none` when there is no digit or another
character. -/
def parseDigits (cs : List Char) : Option Nat :=
  match cs with
  | [] => none
  | _ => cs.foldlM (fun acc c => if 48 ≤ c.toNat ∧ c.toNat ≤ 57 then some (acc * 10 + (c.toNat - 48)) else none) 0

/-- The call `strconv.ParseInt(s, 10, 64)`: an optional sign and decimal digits, within int64. -/
def parseInt64 (s : String) : Option Int :=
  match s.data with
  | [] => none
  | c :: rest =>
    if c.toNat = 45 then
      (parseDigits rest).bind (fun n => if n ≤ 2 ^ 63 then some (-(n : Int)) else none)
    else if c.toNat = 43 then
      (parseDigits rest).bind (fun n => if n < 2 ^ 63 then some (n : Int) else none)
    else
      (parseDigits (c :: rest)).bind (fun n => if n < 2 ^ 63 then some (n : Int) else none)

/-- The call `strconv.ParseUint(s, 10, 64)` followed by the overflow check for a 32-bit field. -/
def parseUint32 (s : String) : Option Nat :=
  (parseDigits s.data).bind (fun n => if n < 2 ^ 32 then some n else none)

/-- The value of a struct field of one of the kinds the option structs use. -/
inductive FieldValue where
  | bool (b : Bool)
  | string (s : String)
  | int (i : Int)
  | uint32 (n : Nat)
  deriving DecidableEq, Repr

/-- The text of a `json.UnmarshalTypeError` raised inside a struct field. -/
def typeErrorText (value field goType : String) : String :=
  "json: cannot unmarshal " ++ value ++ " into Go struct field " ++ field ++ " of type " ++ goType

/-- Storing one JSON value into a struct field holding `dst` (`decodeState.value` and
`literalStore`): `null` leaves the field as it is, a value of the field's kind replaces it, any
other value is a type error. `int` is 64 bits wide. -/
def literalStore (field goType : String) (dst : FieldValue) (item : JValue) :
    Except GoError FieldValue :=
  match item, dst with
  | .null, _ => .ok dst
  | .bool b, .bool _ => .ok (.bool b)
  | .str s, .string _ => .ok (.string s)
  | .num lit, .int _ =>
    match parseInt64 lit with
    | some i => .ok (.int i)
    | none => .error (.external (typeErrorText ("number " ++ lit) field goType) false)
  | .num lit, .uint32 _ =>
    match parseUint32 lit with
    | some n => .ok (.uint32 n)
    | none => .error (.external (typeErrorText ("number " ++ lit) field goType) false)
  | _, _ => .error (.external (typeErrorText item.kindName field goType) false)

/-- Storing one member of a JSON object into a struct: a member whose key selects no field is
skipped, any other is stored into its field. -/
def storeMember {σ F : Type} (fieldOf : String → Option F)
    (store : σ → F → JValue → Except GoError σ) (s : σ) (kv : String × JValue) : Except GoError σ :=
  match fieldOf kv.1 with
  | none => .ok s
  | some f => store s f kv.2

/-- Storing a JSON value into a struct (`decodeState.object`): `null` leaves the struct as it is;
the members of an object are stored in order; any other value is a type error. The library goes
on after a type error and reports the first one when it is done; the struct is not used then, so
the model stops at the first one. -/
def jsonObject {σ F : Type} (goType : String) (fieldOf : String → Option F)
    (store : σ → F → JValue → Except GoError σ) (v : JValue) (dst : σ) : Except GoError σ :=
  match v with
  | .null => .ok dst
  | .obj members => members.foldlM (storeMember fieldOf store) dst
  | other =>
    .error (.external ("json: cannot unmarshal " ++ other.kindName ++ " into Go value of type " ++ goType) false)

/-- The call `json.Unmarshal(data, &dst)` for a struct: the validity scan of the whole text
(`scan`, a parameter), then the store into the struct. -/
def jsonUnmarshal {σ : Type} (scan : String → Except GoError JValue)
    (store : JValue → σ → Except GoError σ) (data : String) (dst : σ) : Except GoError σ :=
  match scan data with
  | .error err => .error err
  | .ok v => store v dst

/-! ## `strconv.Quote`, the verb `%q` -/

/-- The function `strconv.IsPrint`: fixed ranges up to U+00FF, the Unicode tables (`table`)
beyond. -/
def IsPrint (table : Char → Bool) (c : Char) : Bool :=
  if c.toNat ≤ 0xFF then
    (0x20 ≤ c.toNat && c.toNat ≤ 0x7E) || (0xA1 ≤ c.toNat && c.toNat ≠ 0xAD)
  else table c

/-- The digit `lowerhex[n]`. -/
def lowerhex (n : Nat) : Char :=
  "0123456789abcdef".data.getD (n % 16) (Char.ofNat 48)

/-- The function `appendEscapedRune` of `strconv` for the double quote, on a valid rune. -/
def appendEscapedRune (table : Char → Bool) (c : Char) : List Char :=
  let r := c.toNat
  if r = 34 ∨ r = 92 then [Char.ofNat 92, c]
  else if IsPrint table c then [c]
  else if r = 7 then "\\a".data
  else if r = 8 then "\\b".data
  else if r = 12 then "\\f".data
  else if r = 10 then "\\n".data
  else if r = 13 then "\\r".data
  else if r = 9 then "\\t".data
  else if r = 11 then "\\v".data
  else if r < 32 ∨ r = 0x7F then "\\x".data ++ [lowerhex (r / 16), lowerhex r]
  else if r < 0x10000 then
    "\\u".data ++ [lowerhex (r / 4096), lowerhex (r / 256), lowerhex (r / 16), lowerhex r]
  else
    "\\U".data ++ [lowerhex (r / 268435456), lowerhex (r / 16777216), lowerhex (r / 1048576),
      lowerhex (r / 65536), lowerhex (r / 4096), lowerhex (r / 256), lowerhex (r / 16), lowerhex r]

/-- The function `strconv.Quote`, what `%q` prints for a string. -/
def Quote (table : Char → Bool) (s : String) : String :=
  "\"" ++ String.mk (s.data.flatMap (appendEscapedRune table)) ++ "\""

/-! ## The error envelope and `checkResponse` -/

/-- The struct `serverErrorResponse`. The fields `input` and `status` are unexported:
`encoding/json` never writes them. -/
structure serverErrorResponse where
  Error : String := ""
  Path : String := ""
  input : Option JValue := none
  status : Int := 0

/-- The exported fields of `serverErrorResponse`. -/
inductive ErrorField where
  | Error
  | Path
  deriving DecidableEq, Repr

/-- The JSON names of the exported fields (`json:"error"`, `json:"path"`). -/
def ErrorField.names : List (ErrorField × String) :=
  [(.Error, "error"), (.Path, "path")]

/-- The value held by a field of `serverErrorResponse`. -/
def serverErrorResponse.get (s : serverErrorResponse) : ErrorField → FieldValue
  | .Error => .string s.Error
  | .Path => .string s.Path

/-- Writing a field of `serverErrorResponse`. -/
def serverErrorResponse.set (s : serverErrorResponse) : ErrorField → FieldValue → serverErrorResponse
  | .Error, .string x => { s with Error := x }
  | .Path, .string x => { s with Path := x }
  | _, _ => s

/-- Storing a member value into a field of `serverErrorResponse`. -/
def serverErrorResponse.store (s : serverErrorResponse) (f : ErrorField) (v : JValue) :
    Except GoError serverErrorResponse :=
  match f with
  | .Error => (literalStore "serverErrorResponse.error" "string" (s.get .Error) v).map (s.set .Error)
  | .Path => (literalStore "serverErrorResponse.path" "string" (s.get .Path) v).map (s.set .Path)

/-- The method `serverErrorResponse.String`. -/
def serverErrorResponse.String (table : Char → Bool) (s : serverErrorResponse) : String :=
  "\x7b" ++ Quote table "error" ++ ": " ++ Quote table s.Error ++ ", "
    ++ Quote table "path" ++ ": " ++ Quote table s.Path ++ ", "
    ++ Quote table "input" ++ ": " ++ Quote table "<redacted>" ++ ", "
    ++ Quote table "status" ++ ": " ++ toString s.status ++ "\x7d"

/-- The part of an `*http.Response` the adapter looks at. `Body` is what `io.ReadAll(resp.Body)`
yields: the text of the body, or `none` when reading fails. -/
structure Response where
  StatusCode : Int
  Body : Option String

/-- What a call of `checkResponse` does: the error it returns and whether it read the body. -/
structure Checked where
  err : Option GoError
  bodyRead : Bool
  deriving DecidableEq, Repr

/-- The function `checkResponse`. -/
def checkResponse (scan : String → Except GoError JValue) (table : Char → Bool)
    (resp : Response) : Checked :=
  if resp.StatusCode ≥ 200 ∧ resp.StatusCode < 300 then
    { err := none, bodyRead := false }
  else
    match resp.Body with
    | none =>
      { err := some (.errorf "could not read the error response body from the rclone server"),
        bodyRead := true }
    | some body =>
      match jsonUnmarshal scan
          (jsonObject "rclone.serverErrorResponse" (findField ErrorField.names)
            serverErrorResponse.store) body {} with
      | .error _ =>
        { err := some (.errorf "could not unmarshal the error response from the rclone server"),
          bodyRead := true }
      | .ok result =>
        if result.Error = "" then
          { err := some (.errorf
              "unmarshalled the response from the server but it had nothing in the error field"),
            bodyRead := true }
        else
          { err := some (.errorf ("received error from the rclone server: " ++ result.String table)),
            bodyRead := true }

/-! ## The request bodies -/

/-- The struct `VfsOpt`. `uint32` and `os.FileMode` fields are natural numbers below `2 ^ 32`. -/
structure VfsOpt where
  NoSeek : Bool := false
  NoChecksum : Bool := false
  ReadOnly : Bool := false
  NoModTime : Bool := false
  DirCacheTime : String := ""
  Refresh : Bool := false
  PollInterval : String := ""
  Umask : Int := 0
  UID : Nat := 0
  GID : Nat := 0
  DirPerms : Nat := 0
  FilePerms : Nat := 0
  ChunkSize : String := ""
  ChunkSizeLimit : String := ""
  CacheMode : String := ""
  CacheMaxAge : String := ""
  CacheMaxSize : String := ""
  CacheMinFreeSpace : String := ""
  CachePollInterval : String := ""
  CaseInsensitive : Bool := false
  WriteWait : String := ""
  ReadWait : String := ""
  WriteBack : String := ""
  ReadAhead : String := ""
  UsedIsSize : Bool := false
  FastFingerprint : Bool := false
  DiskSpaceTotalSize : String := ""
  ReadChunkStreams : Int := 0
  deriving DecidableEq, Repr

/-- The fields of `VfsOpt`, all exported. -/
inductive VfsField where
  | NoSeek
  | NoChecksum
  | ReadOnly
  | NoModTime
  | DirCacheTime
  | Refresh
  | PollInterval
  | Umask
  | UID
  | GID
  | DirPerms
  | FilePerms
  | ChunkSize
  | ChunkSizeLimit
  | CacheMode
  | CacheMaxAge
  | CacheMaxSize
  | CacheMinFreeSpace
  | CachePollInterval
  | CaseInsensitive
  | WriteWait
  | ReadWait
  | WriteBack
  | ReadAhead
  | UsedIsSize
  | FastFingerprint
  | DiskSpaceTotalSize
  | ReadChunkStreams
  deriving DecidableEq, Repr

/-- The JSON names of the fields of `VfsOpt`: the tag `json:",omitempty"` names none, so each is
the Go field name. -/
def VfsField.names : List (VfsField × String) :=
  [(.NoSeek, "NoSeek"),
   (.NoChecksum, "NoChecksum"),
   (.ReadOnly, "ReadOnly"),
   (.NoModTime, "NoModTime"),
   (.DirCacheTime, "DirCacheTime"),
   (.Refresh, "Refresh"),
   (.PollInterval, "PollInterval"),
   (.Umask, "Umask"),
   (.UID, "UID"),
   (.GID, "GID"),
   (.DirPerms, "DirPerms"),
   (.FilePerms, "FilePerms"),
   (.ChunkSize, "ChunkSize"),
   (.ChunkSizeLimit, "ChunkSizeLimit"),
   (.CacheMode, "CacheMode"),
   (.CacheMaxAge, "CacheMaxAge"),
   (.CacheMaxSize, "CacheMaxSize"),
   (.CacheMinFreeSpace, "CacheMinFreeSpace"),
   (.CachePollInterval, "CachePollInterval"),
   (.CaseInsensitive, "CaseInsensitive"),
   (.WriteWait, "WriteWait"),
   (.ReadWait, "ReadWait"),
   (.WriteBack, "WriteBack"),
   (.ReadAhead, "ReadAhead"),
   (.UsedIsSize, "UsedIsSize"),
   (.FastFingerprint, "FastFingerprint"),
   (.DiskSpaceTotalSize, "DiskSpaceTotalSize"),
   (.ReadChunkStreams, "ReadChunkStreams")]

/-- The Go type of a field of `VfsOpt`, as a type error prints it. -/
def VfsField.goType : VfsField → String
  | .NoSeek => "bool"
  | .NoChecksum => "bool"
  | .ReadOnly => "bool"
  | .NoModTime => "bool"
  | .DirCacheTime => "string"
  | .Refresh => "bool"
  | .PollInterval => "string"
  | .Umask => "int"
  | .UID => "uint32"
  | .GID => "uint32"
  | .DirPerms => "fs.FileMode"
  | .FilePerms => "fs.FileMode"
  | .ChunkSize => "string"
  | .ChunkSizeLimit => "string"
  | .CacheMode => "string"
  | .CacheMaxAge => "string"
  | .CacheMaxSize => "string"
  | .CacheMinFreeSpace => "string"
  | .CachePollInterval => "string"
  | .CaseInsensitive => "bool"
  | .WriteWait => "string"
  | .ReadWait => "string"
  | .WriteBack => "string"
  | .ReadAhead => "string"
  | .UsedIsSize => "bool"
  | .FastFingerprint => "bool"
  | .DiskSpaceTotalSize => "string"
  | .ReadChunkStreams => "int"

/-- The Go name of a field of `VfsOpt`. -/
def VfsField.name : VfsField → String
  | .NoSeek => "NoSeek"
  | .NoChecksum => "NoChecksum"
  | .ReadOnly => "ReadOnly"
  | .NoModTime => "NoModTime"
  | .DirCacheTime => "DirCacheTime"
  | .Refresh => "Refresh"
  | .PollInterval => "PollInterval"
  | .Umask => "Umask"
  | .UID => "UID"
  | .GID => "GID"
  | .DirPerms => "DirPerms"
  | .FilePerms => "FilePerms"
  | .ChunkSize => "ChunkSize"
  | .ChunkSizeLimit => "ChunkSizeLimit"
  | .CacheMode => "CacheMode"
  | .CacheMaxAge => "CacheMaxAge"
  | .CacheMaxSize => "CacheMaxSize"
  | .CacheMinFreeSpace => "CacheMinFreeSpace"
  | .CachePollInterval => "CachePollInterval"
  | .CaseInsensitive => "CaseInsensitive"
  | .WriteWait => "WriteWait"
  | .ReadWait => "ReadWait"
  | .WriteBack => "WriteBack"
  | .ReadAhead => "ReadAhead"
  | .UsedIsSize => "UsedIsSize"
  | .FastFingerprint => "FastFingerprint"
  | .DiskSpaceTotalSize => "DiskSpaceTotalSize"
  | .ReadChunkStreams => "ReadChunkStreams"

/-- The value held by a field of `VfsOpt`. -/
def VfsOpt.get (o : VfsOpt) : VfsField → FieldValue
  | .NoSeek => .bool o.NoSeek
  | .NoChecksum => .bool o.NoChecksum
  | .ReadOnly => .bool o.ReadOnly
  | .NoModTime => .bool o.NoModTime
  | .DirCacheTime => .string o.DirCacheTime
  | .Refresh => .bool o.Refresh
  | .PollInterval => .string o.PollInterval
  | .Umask => .int o.Umask
  | .UID => .uint32 o.UID
  | .GID => .uint32 o.GID
  | .DirPerms => .uint32 o.DirPerms
  | .FilePerms => .uint32 o.FilePerms
  | .ChunkSize => .string o.ChunkSize
  | .ChunkSizeLimit => .string o.ChunkSizeLimit
  | .CacheMode => .string o.CacheMode
  | .CacheMaxAge => .string o.CacheMaxAge
  | .CacheMaxSize => .string o.CacheMaxSize
  | .CacheMinFreeSpace => .string o.CacheMinFreeSpace
  | .CachePollInterval => .string o.CachePollInterval
  | .CaseInsensitive => .bool o.CaseInsensitive
  | .WriteWait => .string o.WriteWait
  | .ReadWait => .string o.ReadWait
  | .WriteBack => .string o.WriteBack
  | .ReadAhead => .string o.ReadAhead
  | .UsedIsSize => .bool o.UsedIsSize
  | .FastFingerprint => .bool o.FastFingerprint
  | .DiskSpaceTotalSize => .string o.DiskSpaceTotalSize
  | .ReadChunkStreams => .int o.ReadChunkStreams

/-- Writing a field of `VfsOpt` (a value of another kind is never written). -/
def VfsOpt.set (o : VfsOpt) : VfsField → FieldValue → VfsOpt
  | .NoSeek, .bool x => { o with NoSeek := x }
  | .NoChecksum, .bool x => { o with NoChecksum := x }
  | .ReadOnly, .bool x => { o with ReadOnly := x }
  | .NoModTime, .bool x => { o with NoModTime := x }
  | .DirCacheTime, .string x => { o with DirCacheTime := x }
  | .Refresh, .bool x => { o with Refresh := x }
  | .PollInterval, .string x => { o with PollInterval := x }
  | .Umask, .int x => { o with Umask := x }
  | .UID, .uint32 x => { o with UID := x }
  | .GID, .uint32 x => { o with GID := x }
  | .DirPerms, .uint32 x => { o with DirPerms := x }
  | .FilePerms, .uint32 x => { o with FilePerms := x }
  | .ChunkSize, .string x => { o with ChunkSize := x }
  | .ChunkSizeLimit, .string x => { o with ChunkSizeLimit := x }
  | .CacheMode, .string x => { o with CacheMode := x }
  | .CacheMaxAge, .string x => { o with CacheMaxAge := x }
  | .CacheMaxSize, .string x => { o with CacheMaxSize := x }
  | .CacheMinFreeSpace, .string x => { o with CacheMinFreeSpace := x }
  | .CachePollInterval, .string x => { o with CachePollInterval := x }
  | .CaseInsensitive, .bool x => { o with CaseInsensitive := x }
  | .WriteWait, .string x => { o with WriteWait := x }
  | .ReadWait, .string x => { o with ReadWait := x }
  | .WriteBack, .string x => { o with WriteBack := x }
  | .ReadAhead, .string x => { o with ReadAhead := x }
  | .UsedIsSize, .bool x => { o with UsedIsSize := x }
  | .FastFingerprint, .bool x => { o with FastFingerprint := x }
  | .DiskSpaceTotalSize, .string x => { o with DiskSpaceTotalSize := x }
  | .ReadChunkStreams, .int x => { o with ReadChunkStreams := x }
  | _, _ => o

/-- Storing a member value into a field of `VfsOpt`. -/
def VfsOpt.store (o : VfsOpt) (f : VfsField) (v : JValue) : Except GoError VfsOpt :=
  (literalStore ("VfsOpt." ++ f.name) f.goType (o.get f) v).map (o.set f)

/-- The struct `MountOpt`. -/
structure MountOpt where
  DebugFUSE : Bool := false
  AllowNonEmpty : Bool := false
  AllowRoot : Bool := false
  AllowOther : Bool := false
  DefaultPermissions : Bool := false
  WritebackCache : Bool := false
  DaemonWait : String := ""
  MaxReadAhead : String := ""
  ExtraOptions : List String := []
  ExtraFlags : List String := []
  AttrTimeout : String := ""
  DeviceName : String := ""
  VolumeName : String := ""
  NoAppleDouble : Bool := false
  NoAppleXattr : Bool := false
  AsyncRead : Bool := false
  CaseInsensitive : String := ""
  BufferSize : String := ""
  deriving DecidableEq, Repr

/-- The struct `MountRequest`. -/
structure MountRequest where
  Fs : String
  MountPoint : String
  VfsOpt : VfsOpt
  MountOpt : MountOpt
  deriving DecidableEq, Repr

/-- The struct `ConfigCreateRequest`; the only `Opt` the adapter sends holds booleans. -/
structure ConfigCreateRequest where
  Name : String
  Parameters : GoMap
  StorageType : String
  Opt : List (String × Bool)
  deriving DecidableEq, Repr

/-- The struct `UnmountRequest`. -/
structure UnmountRequest where
  MountPoint : String
  deriving DecidableEq, Repr

/-- The struct `ConfigDeleteRequest`. -/
structure ConfigDeleteRequest where
  Name : String
  deriving DecidableEq, Repr

/-- The value whose `json.Marshal` is the body of a POST. Marshalling these structs cannot fail
(strings, booleans, numbers, string maps), so the body is identified with the value and the two
`couldn't create request body` returns of the source are unreachable. -/
inductive RequestBody where
  | configCreate (req : ConfigCreateRequest)
  | mount (req : MountRequest)
  | unmount (req : UnmountRequest)
  | configDelete (req : ConfigDeleteRequest)
  deriving DecidableEq, Repr

/-- One `http.Post(url, "application/json", body)` the adapter attempts. -/
structure HttpCall where
  url : String
  body : RequestBody
  deriving DecidableEq, Repr

/-- What an operation does: the POSTs it attempts, in order, and the error it returns. -/
structure Outcome where
  calls : List HttpCall
  err : Option GoError
  deriving DecidableEq, Repr

/-! ## The INI file -/

/-- A section of a parsed INI file (`*ini.Section`): its name and its own keys, in the order of
`KeyStrings()`, each with what `String()` returns for it. -/
structure Section where
  name : String
  keys : GoMap
  deriving DecidableEq, Repr

/-- The method `Section.KeyStrings`: the names of the section's own keys. -/
def Section.KeyStrings (s : Section) : List String :=
  s.keys.map (fun kv => kv.1)

/-- A parsed INI file (`*ini.File`): the `DEFAULT` section, which the parser always creates and
lists first, and the named sections of the text. -/
structure IniFile where
  dflt : Section
  named : List Section
  deriving DecidableEq, Repr

/-- The method `File.Sections`. -/
def IniFile.Sections (f : IniFile) : List Section :=
  f.dflt :: f.named

/-- The method `File.SectionStrings`. -/
def IniFile.SectionStrings (f : IniFile) : List String :=
  f.Sections.map (fun s => s.name)

/-- The method `File.GetSection`: the section registered under a name; the default section is
registered under `DEFAULT`, and the empty name stands for it. -/
def IniFile.GetSection (f : IniFile) (name : String) : Option Section :=
  if name = "" ∨ name = "DEFAULT" then some f.dflt
  else f.named.find? (fun s => s.name = name)

/-- The names `sname[:i]` that the loop of `Section.GetKey` tries for a section name: one for
every position `i` of the child-section delimiter `.`, the longest first. -/
def parentNames (name : String) : List String :=
  (((List.range name.length).filter (fun i => name.data.get? i = some (Char.ofNat 46))).reverse).map
    (fun i => String.mk (name.data.take i))

/-- The loop of `Section.GetKey` for a key the section lacks. A name that is no section is
passed over (`continue`); at the first name that is one, the library returns that section's
`GetKey`, which looks among its own keys and then runs the same loop over its own name, that is
over the shorter names left. -/
def IniFile.parentKey (f : IniFile) (name : String) : List String → Option String
  | [] => none
  | sname :: shorter =>
    match f.GetSection sname with
    | none => IniFile.parentKey f name shorter
    | some sec =>
      match mapGet? sec.keys name with
      | some v => some v
      | none => IniFile.parentKey f name shorter

/-- The method `Section.GetKey`, as the value of the key it finds: the section's own key, else
the key of the nearest parent section that has one (for `[DEFAULT.x]` and for `[.x]` that is the
`DEFAULT` section). -/
def Section.GetKey (s : Section) (f : IniFile) (name : String) : Option String :=
  match mapGet? s.keys name with
  | some v => some v
  | none => f.parentKey name (parentNames s.name)

/-- The chain `Section.Key(name).String()` in the file `f`: what `GetKey` finds, and the empty
string of the key that `Key` makes when `GetKey` finds none. -/
def Section.Key (s : Section) (f : IniFile) (name : String) : String :=
  (s.GetKey f name).getD ""

/-- What the verb `%s` prints for a `[]string`. -/
def fmtStrings (l : List String) : String :=
  "[" ++ " ".intercalate l ++ "]"

/-! ## The adapter -/

/-- The fields of the struct `Rclone` that the operations read. -/
structure Rclone where
  port : Int
  cacheDir : String
  cacheSize : String
  deriving DecidableEq, Repr

/-- What lies outside the adapter during one operation. -/
structure Env where
  /-- The call `ini.Load([]byte(text))`. -/
  iniLoad : String → Except GoError IniFile
  /-- The validity scan of `encoding/json` on a text. -/
  jsonScan : String → Except GoError JValue
  /-- The table of `strconv.IsPrint` beyond U+00FF. -/
  printTable : Char → Bool
  /-- The table of `unicode.ToLower` beyond ASCII. -/
  lowerTable : Char → Char
  /-- The call `http.Post`: the daemon's answer, or a transport error. -/
  httpPost : String → RequestBody → Except GoError Response
  /-- The call `os.MkdirAll(path, 0750)`. -/
  mkdirAll : String → Option GoError
  /-- The call `json.Unmarshal([]byte(text), &mountOpt)`. `MountOpt` has slice fields, which the
  library decodes in place; no statement below depends on how, so the call is taken as it is. -/
  unmarshalMountOpt : String → MountOpt → Except GoError MountOpt

/-- The method `Rclone.Mount`. The result lists the POSTs in the order of the calls of `http.Post`
and holds the returned error. The test `len(secs) != 2` followed by `secs[1]` is the match on a
list of two sections. -/
def Mount (env : Env) (r : Rclone) (rcloneVolume : RcloneVolume)
    (targetPath rcloneConfigData : String) (readOnly : Bool) (parameters : GoMap) : Outcome :=
  let configName := rcloneVolume.deploymentName env.lowerTable
  match env.iniLoad rcloneConfigData with
  | .error err =>
    { calls := [], err := some (.errorf ("mounting failed: couldn't load config " ++ err.Error)) }
  | .ok cfg =>
  match cfg.Sections with
  | [_, sec] =>
    let params : GoMap := sec.KeyStrings.foldl
      (fun params key => if key = "type" then params else mapSet params key (sec.Key cfg key)) []
    let params := mapSet params "config_refresh_token" "false"
    let configOpts : ConfigCreateRequest :=
      { Name := configName, StorageType := sec.Key cfg "type", Parameters := params,
        Opt := [("obscure", true)] }
    let create : HttpCall :=
      { url := "http://localhost:" ++ toString r.port ++ "/config/create",
        body := .configCreate configOpts }
    match env.httpPost create.url create.body with
    | .error err =>
      { calls := [create],
        err := some (.wrapped "mounting failed: couldn't send HTTP request to create config: " err) }
    | .ok resp =>
    match (checkResponse env.jsonScan env.printTable resp).err with
    | some err =>
      { calls := [create], err := some (.wrapped "mounting failed: couldn't create config: " err) }
    | none =>
    let vfsOpt : VfsOpt := { CacheMode := "writes", DirCacheTime := "60s" }
    let vfsOptStr := mapGet parameters "vfsOpt"
    match (if vfsOptStr ≠ "" then
        jsonUnmarshal env.jsonScan (jsonObject "rclone.VfsOpt" (findField VfsField.names) VfsOpt.store)
          vfsOptStr vfsOpt
      else .ok vfsOpt) with
    | .error err => { calls := [create], err := some (.wrapped "could not parse vfsOpt: " err) }
    | .ok vfsOpt =>
    let vfsOpt := { vfsOpt with ReadOnly := readOnly }
    let vfsOpt := { vfsOpt with DiskSpaceTotalSize := r.cacheSize }
    let mountOpt : MountOpt := { AllowNonEmpty := true, AllowOther := true }
    let mountOptStr := mapGet parameters "mountOpt"
    match (if mountOptStr ≠ "" then env.unmarshalMountOpt mountOptStr mountOpt else .ok mountOpt) with
    | .error err => { calls := [create], err := some (.wrapped "could not parse mountOpt: " err) }
    | .ok mountOpt =>
    let remoteWithPath := configName ++ ":" ++ rcloneVolume.RemotePath
    let mountArgs : MountRequest :=
      { Fs := remoteWithPath, MountPoint := targetPath, VfsOpt := vfsOpt, MountOpt := mountOpt }
    match env.mkdirAll targetPath with
    | some err => { calls := [create], err := some err }
    | none =>
    let mount : HttpCall :=
      { url := "http://localhost:" ++ toString r.port ++ "/mount/mount", body := .mount mountArgs }
    match env.httpPost mount.url mount.body with
    | .error err =>
      { calls := [create, mount],
        err := some (.wrapped "mounting failed: couldn't send HTTP request to create mount: " err) }
    | .ok resp =>
    match (checkResponse env.jsonScan env.printTable resp).err with
    | some err =>
      { calls := [create, mount], err := some (.wrapped "mounting failed: couldn't create mount: " err) }
    | none => { calls := [create, mount], err := none }
  | _ =>
    { calls := [],
      err := some (.errorf ("Mounting failed: expected only one config section: "
        ++ fmtStrings cfg.SectionStrings)) }

/-- The POST to `/config/create` that `Mount` builds for the section `sec` of the file `cfg`
(lines 143 to 164 of `Mount`). -/
def createCall (env : Env) (r : Rclone) (rcloneVolume : RcloneVolume) (cfg : IniFile)
    (sec : Section) : HttpCall :=
  { url := "http://localhost:" ++ toString r.port ++ "/config/create",
    body := .configCreate
      { Name := rcloneVolume.deploymentName env.lowerTable,
        StorageType := sec.Key cfg "type",
        Parameters := mapSet (sec.KeyStrings.foldl
          (fun params key => if key = "type" then params else mapSet params key (sec.Key cfg key))
          []) "config_refresh_token" "false",
        Opt := [("obscure", true)] } }

/-- The VFS options after the caller's override, before the forced values (lines 175 to 185 of
`Mount`): the error is the one of `json.Unmarshal`. -/
def vfsOptParsed (env : Env) (parameters : GoMap) : Except GoError VfsOpt :=
  if mapGet parameters "vfsOpt" ≠ "" then
    jsonUnmarshal env.jsonScan (jsonObject "rclone.VfsOpt" (findField VfsField.names) VfsOpt.store)
      (mapGet parameters "vfsOpt") { CacheMode := "writes", DirCacheTime := "60s" }
  else .ok { CacheMode := "writes", DirCacheTime := "60s" }

/-- The mount options after the caller's override (lines 191 to 201 of `Mount`). -/
def mountOptParsed (env : Env) (parameters : GoMap) : Except GoError MountOpt :=
  if mapGet parameters "mountOpt" ≠ "" then
    env.unmarshalMountOpt (mapGet parameters "mountOpt") { AllowNonEmpty := true, AllowOther := true }
  else .ok { AllowNonEmpty := true, AllowOther := true }

/-- The POST to `/mount/mount` that `Mount` builds from the parsed options (lines 187 to 189 and
203 to 222 of `Mount`). -/
def mountCall (env : Env) (r : Rclone) (rcloneVolume : RcloneVolume) (targetPath : String)
    (readOnly : Bool) (vfsOpt : VfsOpt) (mountOpt : MountOpt) : HttpCall :=
  { url := "http://localhost:" ++ toString r.port ++ "/mount/mount",
    body := .mount
      { Fs := rcloneVolume.deploymentName env.lowerTable ++ ":" ++ rcloneVolume.RemotePath,
        MountPoint := targetPath,
        VfsOpt := { vfsOpt with ReadOnly := readOnly, DiskSpaceTotalSize := r.cacheSize },
        MountOpt := mountOpt } }

/-- The method `Rclone.Unmount`. A failure of the POST to `/config/delete` is logged and
`nil` is returned. -/
def Unmount (env : Env) (r : Rclone) (volumeId targetPath : String) : Outcome :=
  let rcloneVolume : RcloneVolume := { ID := volumeId }
  let unmountArgs : UnmountRequest := { MountPoint := targetPath }
  let unmount : HttpCall :=
    { url := "http://localhost:" ++ toString r.port ++ "/mount/unmount", body := .unmount unmountArgs }
  match env.httpPost unmount.url unmount.body with
  | .error err =>
    { calls := [unmount], err := some (.wrapped "unmounting failed: couldn't send HTTP request: " err) }
  | .ok resp =>
  match (checkResponse env.jsonScan env.printTable resp).err with
  | some err => { calls := [unmount], err := some (.wrapped "unmounting failed: " err) }
  | none =>
    let configDelete : ConfigDeleteRequest := { Name := rcloneVolume.deploymentName env.lowerTable }
    let delete : HttpCall :=
      { url := "http://localhost:" ++ toString r.port ++ "/config/delete",
        body := .configDelete configDelete }
    match env.httpPost delete.url delete.body with
    | .error _ => { calls := [unmount, delete], err := none }
    | .ok resp =>
    match (checkResponse env.jsonScan env.printTable resp).err with
    | some _ => { calls := [unmount, delete], err := none }
    | none => { calls := [unmount, delete], err := none }

/-! ## Looking a volume up in the cluster -/

/-- The struct `v1.SecretReference`. -/
structure SecretReference where
  Name : String
  Namespace : String
  deriving DecidableEq, Repr

/-- The fields of `v1.ObjectReference` that are read. -/
structure ObjectReference where
  Namespace : String
  Name : String
  deriving DecidableEq, Repr

/-- The fields of `v1.CSIPersistentVolumeSource` that are read. -/
structure CSIPersistentVolumeSource where
  VolumeHandle : String
  VolumeAttributes : GoMap
  NodePublishSecretRef : Option SecretReference
  deriving DecidableEq, Repr

/-- The fields of `v1.PersistentVolume` that are read: `Spec.CSI` and `Spec.ClaimRef`, both
pointers. -/
structure PersistentVolume where
  CSI : Option CSIPersistentVolumeSource
  ClaimRef : Option ObjectReference
  deriving DecidableEq, Repr

/-- A `v1.Secret`: its `Data`, each value a byte string; the conversion `string(v)` keeps the
bytes. -/
structure Secret where
  Data : GoMap
  deriving DecidableEq, Repr

/-- The cluster and the two package functions of the repository that `GetVolumeById` calls and
that are defined outside `rclone.go`; `σ` is the type of the secret `getSecret` returns. -/
structure Cluster (σ : Type) where
  /-- The call `kubeClient.CoreV1().PersistentVolumes().List(ctx, ...)`. -/
  listPersistentVolumes : Except GoError (List PersistentVolume)
  /-- The call `kubeClient.CoreV1().Secrets(namespace).Get(ctx, name, ...)`: a secret pointer and
  an error. -/
  getSecretObject : String → String → Option Secret × Option GoError
  /-- The package function `getSecret(ctx, namespace, name)`. -/
  getSecret : String → String → σ × Option GoError
  /-- The package function `extractFlags(volumeAttributes, secrets, pvcSecret, nil)`: the remote,
  the path and the error of its five results. -/
  extractFlags : GoMap → GoMap → σ → String × String × Option GoError

/-- The block of `GetVolumeById` under `if secretRef != nil`: the map it fills is the variable
`secrets` that the block itself declares with `:=`. -/
def referencedSecretEntries {σ : Type} (k : Cluster σ) (secretRef : Option SecretReference) : GoMap :=
  match secretRef with
  | none => []
  | some ref =>
    match k.getSecretObject ref.Namespace ref.Name with
    | (some sec, none) =>
      if sec.Data.length > 0 then
        let secrets : GoMap := []
        sec.Data.foldl (fun secrets kv => mapSet secrets kv.1 kv.2) secrets
      else []
    | _ => []

/-- The loop of `GetVolumeById` over `pvs.Items`. The result is `none` when the method panics on
the nil pointer `pv.Spec.ClaimRef`, else the volume and the error it returns. -/
def GetVolumeById.scan {σ : Type} (k : Cluster σ) (volumeId : String) :
    List PersistentVolume → Option (Option RcloneVolume × Option GoError)
  | [] => some (none, some ErrVolumeNotFound)
  | pv :: rest =>
    match pv.CSI with
    | none => GetVolumeById.scan k volumeId rest
    | some csi =>
      if csi.VolumeHandle = volumeId then
        let secretRef := csi.NodePublishSecretRef
        let secrets : GoMap := []
        -- the inner block declares its own `secrets`; the outer variable is not assigned
        let _inner := referencedSecretEntries k secretRef
        match pv.ClaimRef with
        | none => none
        | some claimRef =>
          match k.getSecret claimRef.Namespace claimRef.Name with
          | (pvcSecret, err) =>
            if err ≠ none ∧ IsNotFound err = false then
              some (none, err)
            else
              match k.extractFlags csi.VolumeAttributes secrets pvcSecret with
              | (_, _, some err) => some (none, some err)
              | (remote, path, none) =>
                some (some { Remote := remote, RemotePath := path, ID := volumeId }, none)
      else GetVolumeById.scan k volumeId rest

/-- The method `Rclone.GetVolumeById`. -/
def GetVolumeById {σ : Type} (k : Cluster σ) (volumeId : String) :
    Option (Option RcloneVolume × Option GoError) :=
  match k.listPersistentVolumes with
  | .error err => some (none, some err)
  | .ok pvs => GetVolumeById.scan k volumeId pvs

/-! ## The layering of the VFS options, as the specification words it -/

/-- The kind of a field value: 0 for `bool`, 1 for `string`, 2 for `int`, 3 for `uint32`. -/
def FieldValue.kind : FieldValue → Nat
  | .bool _ => 0
  | .string _ => 1
  | .int _ => 2
  | .uint32 _ => 3

/-- Whether a JSON value is `null`. -/
def JValue.isNull : JValue → Bool
  | .null => true
  | _ => false

/-- The members of the JSON object the caller passes under the parameter `vfsOpt`: none when the
parameter is absent or empty, and none when its text is the JSON `null`. -/
def vfsOverride (env : Env) (parameters : GoMap) : List (String × JValue) :=
  if mapGet parameters "vfsOpt" = "" then []
  else
    match env.jsonScan (mapGet parameters "vfsOpt") with
    | .ok (.obj members) => members
    | _ => []

/-- The value an override specifies for a field of `VfsOpt`: the value of the last member whose
key names the field and whose value is not `null`; `none` when the override does not specify the
field. -/
def specified (members : List (String × JValue)) (f : VfsField) : Option JValue :=
  ((members.filter
      (fun kv => decide (findField VfsField.names kv.1 = some f) && !kv.2.isNull)).getLast?).map
    (fun kv => kv.2)

/-! ## Scenarios -/

/-- The section `[remote1]` with `type = s3` and `access_key_id = AAA`. -/
def remote1 : Section :=
  { name := "remote1", keys := [("type", "s3"), ("access_key_id", "AAA")] }

/-- A parsed connection text with the only named section `[remote1]`. -/
def remote1File : IniFile :=
  { dflt := { name := "DEFAULT", keys := [] }, named := [remote1] }

/-- A parsed connection text with the named sections `[remote1]` and `[remote2]`. -/
def twoRemotesFile : IniFile :=
  { dflt := { name := "DEFAULT", keys := [] },
    named := [remote1, { name := "remote2", keys := [("type", "sftp")] }] }

/-- A connection text whose only named section, `[DEFAULT.x]`, gives no `type` of its own. -/
def inheritConfig : String :=
  "type = s3\nregion = eu\n[DEFAULT.x]\nfoo = bar"

/-- The parsed `inheritConfig`: `type` and `region` are keys of the `DEFAULT` section. -/
def inheritFile : IniFile :=
  { dflt := { name := "DEFAULT", keys := [("type", "s3"), ("region", "eu")] },
    named := [{ name := "DEFAULT.x", keys := [("foo", "bar")] }] }

/-- The text of a VFS override naming three fields, one of them by a key in lower case. -/
def overrideText : String :=
  "\x7b\"CacheMode\":\"full\",\"ReadOnly\":false,\"cachemaxsize\":\"1G\",\"Umask\":18\x7d"

/-- The tree of `overrideText`. -/
def overrideTree : JValue :=
  .obj [("CacheMode", .str "full"), ("ReadOnly", .bool false), ("cachemaxsize", .str "1G"),
    ("Umask", .num "18")]

/-- Two error bodies of the daemon that differ in what they echo under `input`. -/
def errorBody (secret : String) : String :=
  "\x7b\"error\":\"couldn't find remote\",\"input\":\x7b\"pass\":\"" ++ secret
    ++ "\"\x7d,\"path\":\"mount/mount\",\"status\":500\x7d"

/-- The tree of `errorBody secret`. -/
def errorTree (secret : String) : JValue :=
  .obj [("error", .str "couldn't find remote"), ("input", .obj [("pass", .str secret)]),
    ("path", .str "mount/mount"), ("status", .num "500")]

/-- A validity scan that knows the texts of the scenarios and rejects every other text. -/
def scenarioScan (text : String) : Except GoError JValue :=
  if text = overrideText then .ok overrideTree
  else if text = errorBody "hunter2" then .ok (errorTree "hunter2")
  else if text = errorBody "swordfish" then .ok (errorTree "swordfish")
  else .error (.external "unexpected end of JSON input" false)

/-- An environment in which the connection text parses to `cfg`, every POST is answered with
status 200, the target directory can be made and a mount override is taken as it is. -/
def scenarioEnv (cfg : IniFile) : Env :=
  { iniLoad := fun _ => .ok cfg
    jsonScan := scenarioScan
    printTable := fun _ => true
    lowerTable := id
    httpPost := fun _ _ => .ok { StatusCode := 200, Body := some "\x7b\x7d" }
    mkdirAll := fun _ => none
    unmarshalMountOpt := fun _ o => .ok o }

/-- The adapter of the scenarios. -/
def scenarioRclone : Rclone :=
  { port := 5572, cacheDir := "/var/cache/rclone", cacheSize := "10G" }

/-- The volume of the scenarios. -/
def scenarioVolume : RcloneVolume :=
  { Remote := "remote1", RemotePath := "data", ID := "vol-1" }

/-- The connection text of the scenarios. -/
def scenarioConfig : String :=
  "[remote1]\ntype = s3\naccess_key_id = AAA"

/-- The mount request of the scenario without overrides, read-only. -/
def plainMountRequest : MountRequest :=
  { Fs := "rclone-mounter-vol-1:data", MountPoint := "/mnt/vol-1",
    VfsOpt := { CacheMode := "writes", DirCacheTime := "60s", ReadOnly := true,
                DiskSpaceTotalSize := "10G" },
    MountOpt := { AllowNonEmpty := true, AllowOther := true } }

/-- The mount request of the scenario with the VFS override `overrideText`, read-only. -/
def overrideMountRequest : MountRequest :=
  { Fs := "rclone-mounter-vol-1:data", MountPoint := "/mnt/vol-1",
    VfsOpt := { CacheMode := "full", DirCacheTime := "60s", CacheMaxSize := "1G", Umask := 18,
                ReadOnly := true, DiskSpaceTotalSize := "10G" },
    MountOpt := { AllowNonEmpty := true, AllowOther := true } }

/-- A persistent volume with the handle `vol-1`, bound to the claim `storage/claim-1`, whose
node-publish secret is `storage/vol-1-secret`. -/
def volumeWithSecret : PersistentVolume :=
  { CSI := some { VolumeHandle := "vol-1", VolumeAttributes := [],
                  NodePublishSecretRef := some { Name := "vol-1-secret", Namespace := "storage" } },
    ClaimRef := some { Namespace := "storage", Name := "claim-1" } }

/-- A cluster that lists a volume of another driver and `volumeWithSecret`, holds the secret
`storage/vol-1-secret` with a remote and a path, and has no secret named after the claim. In
place of the package function `extractFlags` stands a probe that answers with the entries
`remote` and `remotePath` of the secrets map it is handed. -/
def secretCluster : Cluster Unit :=
  { listPersistentVolumes := .ok [{ CSI := none, ClaimRef := none }, volumeWithSecret]
    getSecretObject := fun _ _ =>
      (some { Data := [("remote", "remote1"), ("remotePath", "data")] }, none)
    getSecret := fun _ _ => ((), some (.external "secrets \"claim-1\" not found" true))
    extractFlags := fun _ secrets _ => (mapGet secrets "remote", mapGet secrets "remotePath", none) }

/-- A daemon that unmounts but cannot be reached when the config is to be deleted. -/
def deleteFailsEnv : Env :=
  { scenarioEnv remote1File with
    httpPost := fun url _ =>
      if url = "http://localhost:5572/config/delete" then
        .error (.external "connection refused" false)
      else .ok { StatusCode := 200, Body := some "\x7b\x7d" } }

/-- A daemon that answers every POST with status 500 and an error body. -/
def failingEnv : Env :=
  { scenarioEnv remote1File with
    httpPost := fun _ _ => .ok { StatusCode := 500, Body := some (errorBody "hunter2") } }

/-- An environment of the scenarios in which each outside call answers as given: the INI parser,
the POST to `/config/create`, every other POST, the decoding of a mount override, and the
making of the target directory. -/
def stepEnv (load : Except GoError IniFile) (create mount : Except GoError Response)
    (mountOpt : Except GoError MountOpt) (mkdir : Option GoError) : Env :=
  { iniLoad := fun _ => load
    jsonScan := scenarioScan
    printTable := fun _ => true
    lowerTable := id
    httpPost := fun url _ => if url = "http://localhost:5572/config/create" then create else mount
    mkdirAll := fun _ => mkdir
    unmarshalMountOpt := fun _ _ => mountOpt }

/-- An answer with status 200. -/
def answer200 : Response :=
  { StatusCode := 200, Body := some "\x7b\x7d" }

/-- An answer with status 500 whose body is not JSON. -/
def answer500 : Response :=
  { StatusCode := 500, Body := some "Internal Server Error" }

/-- A transport error of `http.Post`. -/
def refused : GoError :=
  .external "Post \"http://localhost:5572\": dial tcp 127.0.0.1:5572: connect: connection refused"
    false

/-- The error of `os.MkdirAll` when a file stands in the way. -/
def notADirectory : GoError :=
  .external "mkdir /mnt/vol-1: not a directory" false

/-- The mount options the scenarios send. -/
def plainMountOpt : MountOpt :=
  { AllowNonEmpty := true, AllowOther := true }

/-! ## Properties -/

/-! ### Go maps -/

theorem mapGet?_mapSet (m : GoMap) (k v k1 : String) :
    mapGet? (mapSet m k v) k1 = if k = k1 then some v else mapGet? m k1 := by
  induction m with
  | nil => simp [mapSet, mapGet?]
  | cons kv rest ih =>
    obtain ⟨a, b⟩ := kv
    by_cases hak : a = k
    · subst hak
      by_cases h1 : a = k1 <;> simp [mapSet, mapGet?, h1]
    · by_cases h1 : a = k1
      · subst h1
        have hka : ¬ k = a := fun h => hak h.symm
        simp [mapSet, mapGet?, hak, hka]
      · simp [mapSet, mapGet?, hak, h1, ih]

theorem mapGet?_eq_none_iff (m : GoMap) (k : String) :
    mapGet? m k = none ↔ k ∉ m.map (fun kv => kv.1) := by
  induction m with
  | nil => simp [mapGet?]
  | cons kv rest ih =>
    obtain ⟨a, b⟩ := kv
    by_cases h : a = k
    · simp [mapGet?, h]
    · have h1 : ¬ k = a := fun e => h e.symm
      simp [mapGet?, h, h1, ih]

/-- The loop of `Mount` over the keys of the section: afterwards a key other than `type` that
the loop met holds the value read for it, and any other key holds what it held before. -/
theorem mapGet?_collect (val : String → String) (keys : List String) (acc : GoMap) (k : String) :
    mapGet? (keys.foldl
      (fun params key => if key = "type" then params else mapSet params key (val key)) acc) k
    = if k ∈ keys ∧ k ≠ "type" then some (val k) else mapGet? acc k := by
  induction keys generalizing acc with
  | nil => simp
  | cons key rest ih =>
    simp only [List.foldl_cons, ih]
    by_cases hk : k ∈ rest ∧ k ≠ "type"
    · have : k ∈ key :: rest ∧ k ≠ "type" := ⟨List.mem_cons_of_mem _ hk.1, hk.2⟩
      simp [hk, this]
    · rw [if_neg hk]
      by_cases hty : key = "type"
      · subst hty
        have : ¬ (k ∈ "type" :: rest ∧ k ≠ "type") := by
          rintro ⟨hm, hne⟩
          rcases List.mem_cons.mp hm with h | h
          · exact hne h
          · exact hk ⟨h, hne⟩
        rw [if_pos rfl, if_neg this]
      · rw [if_neg hty, mapGet?_mapSet]
        by_cases hkk : key = k
        · subst hkk
          simp [hty]
        · have : ¬ (k ∈ key :: rest ∧ k ≠ "type") := by
            rintro ⟨hm, hne⟩
            rcases List.mem_cons.mp hm with h | h
            · exact hkk h.symm
            · exact hk ⟨h, hne⟩
          rw [if_neg hkk, if_neg this]

/-- For a key of the section itself, `Key` gives the section's value. -/
theorem Section.Key_own (s : Section) (f : IniFile) (name v : String)
    (h : mapGet? s.keys name = some v) : s.Key f name = v := by
  simp [Section.Key, Section.GetKey, h]

/-! ### `checkResponse` -/

/-- A member whose key selects no field does not change what is stored. -/
theorem foldlM_filter_skip {σ F : Type} (fieldOf : String → Option F)
    (store : σ → F → JValue → Except GoError σ) (keep : String × JValue → Bool)
    (hskip : ∀ kv, keep kv = false → fieldOf kv.1 = none)
    (members : List (String × JValue)) (dst : σ) :
    members.foldlM (storeMember fieldOf store) dst
    = (members.filter keep).foldlM (storeMember fieldOf store) dst := by
  induction members generalizing dst with
  | nil => rfl
  | cons kv rest ih =>
    by_cases hk : keep kv = true
    · rw [List.filter_cons_of_pos hk, List.foldlM_cons, List.foldlM_cons]
      congr 1
      funext s
      exact ih s
    · have hk1 : keep kv = false := by simpa using hk
      rw [List.filter_cons_of_neg hk, List.foldlM_cons]
      have : storeMember fieldOf store dst kv = .ok dst := by
        simp [storeMember, hskip kv hk1]
      rw [this]
      exact ih dst

theorem findField_error_input : findField ErrorField.names "input" = none := by
  decide

theorem literalStore_string (field goType : String) (cur : String) (v : JValue) (x : FieldValue)
    (h : literalStore field goType (.string cur) v = .ok x) : ∃ t, x = .string t := by
  cases v <;> simp [literalStore] at h
  · exact ⟨cur, h.symm⟩
  · exact ⟨_, h.symm⟩

theorem store_keeps_status (s e : serverErrorResponse) (f : ErrorField) (v : JValue)
    (h : s.store f v = .ok e) : e.status = s.status := by
  cases f <;> simp only [serverErrorResponse.store] at h
  all_goals
    cases hl : literalStore _ _ _ v with
    | error err => rw [hl] at h; cases h
    | ok x =>
      rw [hl] at h
      obtain ⟨t, rfl⟩ := literalStore_string _ _ _ _ _ hl
      simp [Except.map, serverErrorResponse.set] at h
      rw [← h]

theorem fold_keeps_status (members : List (String × JValue)) (s e : serverErrorResponse)
    (h : members.foldlM (storeMember (findField ErrorField.names) serverErrorResponse.store) s
      = .ok e) : e.status = s.status := by
  induction members generalizing s with
  | nil => simp [pure, Except.pure] at h; rw [h]
  | cons kv rest ih =>
    rw [List.foldlM_cons] at h
    cases hs : storeMember (findField ErrorField.names) serverErrorResponse.store s kv with
    | error err => rw [hs] at h; cases h
    | ok s1 =>
      rw [hs] at h
      rw [ih s1 h]
      unfold storeMember at hs
      cases hf : findField ErrorField.names kv.1 with
      | none => rw [hf] at hs; cases hs; rfl
      | some f => rw [hf] at hs; exact store_keeps_status s s1 f kv.2 hs

theorem Quote_ascii_literals (table : Char → Bool) :
    Quote table "error" = "\"error\"" ∧ Quote table "path" = "\"path\""
    ∧ Quote table "input" = "\"input\"" ∧ Quote table "<redacted>" = "\"<redacted>\""
    ∧ Quote table "status" = "\"status\"" :=
  ⟨rfl, rfl, rfl, rfl, rfl⟩

/-- The nil result of `checkResponse` means a status code in 200..299. -/
theorem checkResponse_err_none (scan : String → Except GoError JValue)
    (table : Char → Bool) (resp : Response) :
    (checkResponse scan table resp).err = none
      ↔ (200 ≤ resp.StatusCode ∧ resp.StatusCode < 300) := by
  unfold checkResponse
  split_ifs with h
  · exact ⟨fun _ => h, fun _ => rfl⟩
  · refine ⟨fun hnone => ?_, fun h2 => absurd h2 h⟩
    exfalso
    revert hnone
    cases resp.Body with
    | none => simp
    | some body =>
      simp only []
      split
      · simp
      · split <;> simp

/-- C2: `checkResponse` returns no error exactly when the status code lies in 200..299, whatever
the body is; and it reads the body exactly when the status code lies outside that range. -/
theorem checkResponse_error_iff_status (scan : String → Except GoError JValue)
    (table : Char → Bool) (resp : Response) :
    ((checkResponse scan table resp).err = none ↔ (200 ≤ resp.StatusCode ∧ resp.StatusCode < 300))
    ∧ ((checkResponse scan table resp).bodyRead = false
        ↔ (200 ≤ resp.StatusCode ∧ resp.StatusCode < 300)) := by
  unfold checkResponse
  by_cases h : resp.StatusCode ≥ 200 ∧ resp.StatusCode < 300
  · rw [if_pos h]
    exact ⟨⟨fun _ => h, fun _ => rfl⟩, ⟨fun _ => h, fun _ => rfl⟩⟩
  · rw [if_neg h]
    have h1 : ¬ (200 ≤ resp.StatusCode ∧ resp.StatusCode < 300) := h
    cases resp.Body with
    | none => simp [h1]
    | some body =>
      simp only []
      split
      · simp [h1]
      · split <;> simp [h1]

theorem jsonObject_error_input_blind (m1 m2 : List (String × JValue)) (s : serverErrorResponse)
    (hsame : m1.filter (fun kv => kv.1 ≠ "input") = m2.filter (fun kv => kv.1 ≠ "input")) :
    jsonObject "rclone.serverErrorResponse" (findField ErrorField.names)
        serverErrorResponse.store (.obj m1) s
      = jsonObject "rclone.serverErrorResponse" (findField ErrorField.names)
        serverErrorResponse.store (.obj m2) s := by
  have hskip : ∀ kv : String × JValue, decide (kv.1 ≠ "input") = false →
      findField ErrorField.names kv.1 = none := by
    intro kv hkv
    have : kv.1 = "input" := by simpa using hkv
    rw [this]
    exact findField_error_input
  simp only [jsonObject]
  rw [foldlM_filter_skip _ _ (fun kv => decide (kv.1 ≠ "input")) hskip m1,
    foldlM_filter_skip _ _ (fun kv => decide (kv.1 ≠ "input")) hskip m2, hsame]

theorem String_of_envelope (table : Char → Bool) (e : serverErrorResponse) (h : e.status = 0) :
    e.String table = "\x7b\"error\": " ++ Quote table e.Error ++ ", \"path\": "
      ++ Quote table e.Path ++ ", \"input\": \"<redacted>\", \"status\": 0\x7d" := by
  obtain ⟨h1, h2, h3, h4, h5⟩ := Quote_ascii_literals table
  unfold serverErrorResponse.String
  rw [h, h1, h2, h3, h4, h5]
  simp only [String.append_assoc]
  rfl

/-- C1: for a response outside 200..299 whose body is a JSON object that stores into the error
envelope with a non-empty `Error`, the message of the error `checkResponse` returns is built from
`Error` and `Path` and carries the literal `"<redacted>"` where the input would stand; and a
second body whose members differ from the first only under the key `input` gives the very same
result. -/
theorem checkResponse_redacts_input (scan : String → Except GoError JValue) (table : Char → Bool)
    (status : Int) (body1 body2 : String) (m1 m2 : List (String × JValue))
    (e : serverErrorResponse)
    (hstatus : ¬ (200 ≤ status ∧ status < 300))
    (h1 : scan body1 = .ok (.obj m1)) (h2 : scan body2 = .ok (.obj m2))
    (hsame : m1.filter (fun kv => kv.1 ≠ "input") = m2.filter (fun kv => kv.1 ≠ "input"))
    (henv : jsonObject "rclone.serverErrorResponse" (findField ErrorField.names)
      serverErrorResponse.store (.obj m1) {} = .ok e)
    (hne : e.Error ≠ "") :
    (checkResponse scan table { StatusCode := status, Body := some body1 }).err
      = some (.errorf ("received error from the rclone server: \x7b\"error\": "
          ++ Quote table e.Error ++ ", \"path\": " ++ Quote table e.Path
          ++ ", \"input\": \"<redacted>\", \"status\": 0\x7d"))
    ∧ checkResponse scan table { StatusCode := status, Body := some body2 }
      = checkResponse scan table { StatusCode := status, Body := some body1 } := by
  have henv2 := henv
  rw [jsonObject_error_input_blind m1 m2 _ hsame] at henv2
  have hst : e.status = 0 := by
    simp only [jsonObject] at henv
    exact fold_keeps_status m1 {} e henv
  have hge : ¬ (status ≥ 200 ∧ status < 300) := hstatus
  constructor
  · simp only [checkResponse, jsonUnmarshal, h1, henv, if_neg hge, if_neg hne]
    rw [String_of_envelope table e hst]
    simp only [String.append_assoc]
    rfl
  · simp only [checkResponse, jsonUnmarshal, h1, h2, henv, henv2]

/-! ### `Mount`: the config request -/

/-- C4: when the connection config parses to zero or to more than one named section, `Mount`
returns an error and attempts no POST at all. -/
theorem Mount_refuses_section_count (env : Env) (r : Rclone) (rcloneVolume : RcloneVolume)
    (targetPath rcloneConfigData : String) (readOnly : Bool) (parameters : GoMap) (cfg : IniFile)
    (hload : env.iniLoad rcloneConfigData = .ok cfg) (hcount : cfg.named.length ≠ 1) :
    (Mount env r rcloneVolume targetPath rcloneConfigData readOnly parameters).err ≠ none
    ∧ (Mount env r rcloneVolume targetPath rcloneConfigData readOnly parameters).calls = [] := by
  rcases hn : cfg.named with _ | ⟨a, _ | ⟨b, rest⟩⟩
  · simp [Mount, hload, IniFile.Sections, hn]
  · simp [hn] at hcount
  · simp [Mount, hload, IniFile.Sections, hn]

/-- C3: when the connection config parses to exactly one named section, the first POST of `Mount`
goes to `/config/create` with a request whose name is the deployment name of the volume, whose
type is the value of the section's key `type` as the INI library reads it (`sec.Key("type")`: the
value the section itself gives, and for a section that gives none the value it inherits from a
parent section, else the empty string), whose `opt` is `obscure: true`, and whose parameters hold
`config_refresh_token = false` and, for every other key but `type`, what the section holds. -/
theorem Mount_create_config_request (env : Env) (r : Rclone) (rcloneVolume : RcloneVolume)
    (targetPath rcloneConfigData : String) (readOnly : Bool) (parameters : GoMap)
    (dflt sec : Section)
    (hload : env.iniLoad rcloneConfigData = .ok { dflt := dflt, named := [sec] }) :
    ∃ req rest,
      (Mount env r rcloneVolume targetPath rcloneConfigData readOnly parameters).calls
        = { url := "http://localhost:" ++ toString r.port ++ "/config/create",
            body := .configCreate req } :: rest
      ∧ req.Name = rcloneVolume.deploymentName env.lowerTable
      ∧ req.StorageType = sec.Key { dflt := dflt, named := [sec] } "type"
      ∧ (∀ v, mapGet? sec.keys "type" = some v → req.StorageType = v)
      ∧ req.Opt = [("obscure", true)]
      ∧ ∀ k, mapGet? req.Parameters k
          = if k = "config_refresh_token" then some "false"
            else if k = "type" then none
            else mapGet? sec.keys k := by
  let cfg : IniFile := { dflt := dflt, named := [sec] }
  let params : GoMap := mapSet (sec.KeyStrings.foldl
      (fun params key => if key = "type" then params else mapSet params key (sec.Key cfg key)) [])
      "config_refresh_token" "false"
  let req : ConfigCreateRequest :=
    { Name := rcloneVolume.deploymentName env.lowerTable, StorageType := sec.Key cfg "type",
      Parameters := params, Opt := [("obscure", true)] }
  have hparams : ∀ k, mapGet? req.Parameters k
      = if k = "config_refresh_token" then some "false"
        else if k = "type" then none
        else mapGet? sec.keys k := by
    intro k
    show mapGet? params k = _
    simp only [params]
    rw [mapGet?_mapSet, mapGet?_collect]
    by_cases h1 : k = "config_refresh_token"
    · simp [h1]
    · have h1s : ¬ "config_refresh_token" = k := fun h => h1 h.symm
      rw [if_neg h1, if_neg h1s]
      by_cases h2 : k = "type"
      · simp [h2, mapGet?]
      · rw [if_neg h2]
        by_cases hm : k ∈ sec.KeyStrings
        · rw [if_pos ⟨hm, h2⟩]
          have hsome : mapGet? sec.keys k ≠ none := by
            rw [Ne, mapGet?_eq_none_iff]
            exact fun h => h hm
          cases hg : mapGet? sec.keys k with
          | none => exact absurd hg hsome
          | some v => rw [Section.Key_own sec cfg k v hg]
        · have hnone : mapGet? sec.keys k = none := (mapGet?_eq_none_iff _ _).mpr hm
          rw [if_neg (fun h => hm h.1), hnone]
          rfl
  have hcalls : ∃ rest,
      (Mount env r rcloneVolume targetPath rcloneConfigData readOnly parameters).calls
        = { url := "http://localhost:" ++ toString r.port ++ "/config/create",
            body := .configCreate req } :: rest := by
    simp only [Mount, hload, IniFile.Sections]
    repeat' split
    all_goals exact ⟨_, rfl⟩
  obtain ⟨rest, hrest⟩ := hcalls
  exact ⟨req, rest, hrest, rfl, rfl, fun v hv => Section.Key_own sec cfg "type" v hv, rfl, hparams⟩

/-! ### `Unmount` -/

/-- C6: `Unmount` returns no error exactly when the POST to `/mount/unmount` was answered with a
status in 200..299, whatever happens to the POST to `/config/delete`; and when it returns an
error the POST to `/mount/unmount` is the only one it attempted. -/
theorem Unmount_decided_by_unmount_request (env : Env) (r : Rclone) (volumeId targetPath : String) :
    ((Unmount env r volumeId targetPath).err = none
      ↔ ∃ resp, env.httpPost ("http://localhost:" ++ toString r.port ++ "/mount/unmount")
            (.unmount { MountPoint := targetPath }) = .ok resp
          ∧ 200 ≤ resp.StatusCode ∧ resp.StatusCode < 300)
    ∧ ((Unmount env r volumeId targetPath).err ≠ none →
        (Unmount env r volumeId targetPath).calls
          = [{ url := "http://localhost:" ++ toString r.port ++ "/mount/unmount",
               body := .unmount { MountPoint := targetPath } }]) := by
  unfold Unmount
  simp only []
  cases hpost : env.httpPost ("http://localhost:" ++ toString r.port ++ "/mount/unmount")
      (.unmount { MountPoint := targetPath }) with
  | error err => simp
  | ok resp =>
    have hc := checkResponse_err_none env.jsonScan env.printTable resp
    cases hchk : (checkResponse env.jsonScan env.printTable resp).err with
    | some err =>
      have h2xx : ¬ (200 ≤ resp.StatusCode ∧ resp.StatusCode < 300) := by
        intro h
        rw [hc.mpr h] at hchk
        cases hchk
      simp only [hchk]
      refine ⟨⟨fun h => (by cases h), ?_⟩, fun _ => trivial⟩
      rintro ⟨resp1, h1, h2⟩
      cases h1
      exact absurd h2 h2xx
    | none =>
      have h2xx := hc.mp hchk
      simp only [hchk]
      have hnone : ∀ o : Outcome, o.err = none → ((o.err = none ↔
          ∃ resp1, Except.ok resp = (Except.ok resp1 : Except GoError Response)
            ∧ 200 ≤ resp1.StatusCode ∧ resp1.StatusCode < 300)
          ∧ (o.err ≠ none → o.calls
            = [{ url := "http://localhost:" ++ toString r.port ++ "/mount/unmount",
                 body := .unmount { MountPoint := targetPath } }])) := by
        intro o ho
        exact ⟨⟨fun _ => ⟨resp, rfl, h2xx⟩, fun _ => ho⟩, fun h => absurd ho h⟩
      apply hnone
      repeat' split
      all_goals rfl

/-! ### `GetVolumeById` -/

theorem scan_not_found {σ : Type} (k : Cluster σ) (volumeId : String)
    (pvs : List PersistentVolume)
    (hno : ∀ pv ∈ pvs, ∀ csi, pv.CSI = some csi → csi.VolumeHandle ≠ volumeId) :
    GetVolumeById.scan k volumeId pvs = some (none, some ErrVolumeNotFound) := by
  induction pvs with
  | nil => rfl
  | cons pv rest ih =>
    have ih1 := ih (fun p hp => hno p (List.mem_cons_of_mem _ hp))
    unfold GetVolumeById.scan
    cases hcsi : pv.CSI with
    | none => exact ih1
    | some csi =>
      have hne := hno pv (List.mem_cons_self _ _) csi hcsi
      simp only [if_neg hne]
      exact ih1

/-- C9: when the list of persistent volumes is read and none of them has a CSI source whose
volume handle is the given ID, `GetVolumeById` returns no volume and the sentinel
`ErrVolumeNotFound`. -/
theorem GetVolumeById_not_found {σ : Type} (k : Cluster σ) (volumeId : String)
    (pvs : List PersistentVolume) (hlist : k.listPersistentVolumes = .ok pvs)
    (hno : ∀ pv ∈ pvs, ∀ csi, pv.CSI = some csi → csi.VolumeHandle ≠ volumeId) :
    GetVolumeById k volumeId = some (none, some ErrVolumeNotFound) := by
  unfold GetVolumeById
  rw [hlist]
  exact scan_not_found k volumeId pvs hno

/-! ### `deploymentName` -/

theorem rangeRunes_length_le (k : Nat) (bs : List Nat) : (rangeRunes k bs).length ≤ bs.length := by
  induction bs generalizing k with
  | nil => cases k <;> simp [rangeRunes]
  | cons b rest ih =>
    cases k with
    | zero =>
      simp only [rangeRunes, List.length_cons]
      have := ih ((decodeRune (b :: rest)).2 - 1)
      omega
    | succ k =>
      simp only [rangeRunes, List.length_cons]
      have := ih k
      omega

theorem rangeRunes_skip (front rest : List Nat) :
    rangeRunes front.length (front ++ rest) = rangeRunes 0 rest := by
  induction front with
  | nil => rfl
  | cons b tail ih => simpa [rangeRunes] using ih

theorem utf8EncodeRune_ne_nil (n : Nat) : utf8EncodeRune n ≠ [] := by
  unfold utf8EncodeRune
  split_ifs <;> simp

theorem decodeRune_encode (n : Nat) (hv : n < 0xD800 ∨ (0xDFFF < n ∧ n < 0x110000))
    (rest : List Nat) :
    decodeRune (utf8EncodeRune n ++ rest) = (n, (utf8EncodeRune n).length) := by
  unfold utf8EncodeRune
  by_cases h1 : n < 0x80
  · simp [h1, decodeRune]
  · by_cases h2 : n < 0x800
    · have hb0 : ¬ (0xC0 + n / 64 < 0x80) := by omega
      have hb0r : 0xC2 ≤ 0xC0 + n / 64 ∧ 0xC0 + n / 64 ≤ 0xDF := by omega
      have hc : isCont (0x80 + n % 64) = true := by simp [isCont]; omega
      have hval : (0xC0 + n / 64 - 0xC0) * 64 + (0x80 + n % 64 - 0x80) = n := by omega
      simp only [h1, h2, if_false, if_true, List.cons_append, List.nil_append, decodeRune, hb0,
        hb0r, and_self, hc, hval, List.length_cons, List.length_nil]
    · by_cases h3 : n < 0x10000
      · have hb0 : ¬ (0xE0 + n / 4096 < 0x80) := by omega
        have hb0a : ¬ (0xC2 ≤ 0xE0 + n / 4096 ∧ 0xE0 + n / 4096 ≤ 0xDF) := by omega
        have hb0r : 0xE0 ≤ 0xE0 + n / 4096 ∧ 0xE0 + n / 4096 ≤ 0xEF := by omega
        have hc : isCont (0x80 + n % 64) = true := by simp [isCont]; omega
        have hlo : (if 0xE0 + n / 4096 = 0xE0 then 0xA0 else 0x80) ≤ 0x80 + n / 64 % 64 := by
          split_ifs <;> omega
        have hhi : 0x80 + n / 64 % 64 ≤ (if 0xE0 + n / 4096 = 0xED then 0x9F else 0xBF) := by
          split_ifs <;> omega
        have hval : (0xE0 + n / 4096 - 0xE0) * 4096 + (0x80 + n / 64 % 64 - 0x80) * 64
            + (0x80 + n % 64 - 0x80) = n := by omega
        simp only [h1, h2, h3, if_false, if_true, List.cons_append, List.nil_append, decodeRune,
          hb0, hb0a, hb0r, and_self, hc, hlo, hhi, hval, List.length_cons, List.length_nil]
      · have hb0 : ¬ (0xF0 + n / 262144 < 0x80) := by omega
        have hb0a : ¬ (0xC2 ≤ 0xF0 + n / 262144 ∧ 0xF0 + n / 262144 ≤ 0xDF) := by omega
        have hb0b : ¬ (0xE0 ≤ 0xF0 + n / 262144 ∧ 0xF0 + n / 262144 ≤ 0xEF) := by omega
        have hb0r : 0xF0 ≤ 0xF0 + n / 262144 ∧ 0xF0 + n / 262144 ≤ 0xF4 := by omega
        have hc2 : isCont (0x80 + n / 64 % 64) = true := by simp [isCont]; omega
        have hc3 : isCont (0x80 + n % 64) = true := by simp [isCont]; omega
        have hlo : (if 0xF0 + n / 262144 = 0xF0 then 0x90 else 0x80) ≤ 0x80 + n / 4096 % 64 := by
          split_ifs <;> omega
        have hhi : 0x80 + n / 4096 % 64 ≤ (if 0xF0 + n / 262144 = 0xF4 then 0x8F else 0xBF) := by
          split_ifs <;> omega
        have hval : (0xF0 + n / 262144 - 0xF0) * 262144 + (0x80 + n / 4096 % 64 - 0x80) * 4096
            + (0x80 + n / 64 % 64 - 0x80) * 64 + (0x80 + n % 64 - 0x80) = n := by omega
        simp only [h1, h2, h3, if_false, if_true, List.cons_append, List.nil_append, decodeRune,
          hb0, hb0a, hb0b, hb0r, and_self, hc2, hc3, hlo, hhi, hval, List.length_cons,
          List.length_nil]

theorem Char_toNat_valid (c : Char) : c.toNat < 0xD800 ∨ (0xDFFF < c.toNat ∧ c.toNat < 0x110000) :=
  c.valid

theorem rangeRunes_encode (c : Char) (rest : List Nat) :
    rangeRunes 0 (utf8EncodeRune c.toNat ++ rest) = c :: rangeRunes 0 rest := by
  have hdec := decodeRune_encode c.toNat (Char_toNat_valid c) rest
  cases henc : utf8EncodeRune c.toNat with
  | nil => exact absurd henc (utf8EncodeRune_ne_nil _)
  | cons b tail =>
    rw [henc] at hdec
    simp only [List.cons_append] at hdec ⊢
    simp only [rangeRunes, hdec, List.length_cons, Nat.add_sub_cancel, Char.ofNat_toNat]
    rw [rangeRunes_skip]

/-- Decoding the UTF-8 bytes of a text gives its characters back. -/
theorem rangeRunes_utf8Bytes (l : List Char) :
    rangeRunes 0 (l.flatMap (fun c => utf8EncodeRune c.toNat)) = l := by
  induction l with
  | nil => rfl
  | cons c rest ih =>
    rw [List.flatMap_cons, rangeRunes_encode, ih]

theorem utf8_ascii (l : List Char) (h : ∀ c ∈ l, c.toNat < 128) :
    l.flatMap (fun c => utf8EncodeRune c.toNat) = l.map (fun c => c.toNat) := by
  induction l with
  | nil => rfl
  | cons c rest ih =>
    have hc : c.toNat < 0x80 := h c (List.mem_cons_self _ _)
    rw [List.flatMap_cons, List.map_cons, ih (fun d hd => h d (List.mem_cons_of_mem _ hd))]
    simp [utf8EncodeRune, hc]

theorem rangeRunes_ascii (l : List Char) (h : ∀ c ∈ l, c.toNat < 128) :
    rangeRunes 0 (l.map (fun c => c.toNat)) = l := by
  rw [← utf8_ascii l h]
  exact rangeRunes_utf8Bytes l

theorem Char_toNat_ofNat (n : Nat) (h : n < 0xD800) : (Char.ofNat n).toNat = n := by
  have hv : n.isValidChar := Or.inl h
  simp only [Char.ofNat, hv, dif_pos, Char.ofNatAux, Char.toNat]
  rfl

theorem unicodeToLower_id_idem (c : Char) :
    unicodeToLower id (unicodeToLower id c) = unicodeToLower id c := by
  unfold unicodeToLower
  by_cases h1 : c.toNat ≤ 0x7F
  · by_cases h2 : 65 ≤ c.toNat ∧ c.toNat ≤ 90
    · have hn : (Char.ofNat (c.toNat + 32)).toNat = c.toNat + 32 :=
        Char_toNat_ofNat _ (by omega)
      have h3 : (Char.ofNat (c.toNat + 32)).toNat ≤ 0x7F := by omega
      have h4 : ¬ (65 ≤ (Char.ofNat (c.toNat + 32)).toNat
          ∧ (Char.ofNat (c.toNat + 32)).toNat ≤ 90) := by omega
      simp only [if_pos h1, if_pos h2, if_pos h3, if_neg h4]
    · simp only [if_pos h1, if_neg h2]
  · simp only [if_neg h1, id]

theorem deploymentName_length_le (table : Char → Char) (v : RcloneVolume) :
    (v.deploymentName table).length ≤ 63 := by
  simp only [RcloneVolume.deploymentName, stringsToLower, String.length_mk, List.length_map]
  split_ifs with h
  · exact le_trans (rangeRunes_length_le 0 _) (List.length_take_le 63 _)
  · exact le_trans (rangeRunes_length_le 0 _) (by omega)

theorem stringsToLower_idem (table : Char → Char)
    (hidem : ∀ c, unicodeToLower table (unicodeToLower table c) = unicodeToLower table c)
    (bs : List Nat) :
    stringsToLower table (utf8Bytes (stringsToLower table bs)) = stringsToLower table bs := by
  simp only [stringsToLower, utf8Bytes, rangeRunes_utf8Bytes, List.map_map]
  congr 1
  apply List.map_congr_left
  intro c _
  exact hidem c

theorem deploymentName_ascii_length (table : Char → Char) (v : RcloneVolume)
    (hascii : ∀ c ∈ v.ID.data, c.toNat < 128) (hlen : 48 ≤ v.ID.length) :
    (v.deploymentName table).length = 63 := by
  have hall : ∀ c ∈ ("rclone-mounter-" ++ v.ID).data, c.toNat < 128 := by
    intro c hc
    rw [String.data_append, List.mem_append] at hc
    rcases hc with hc | hc
    · revert c
      decide
    · exact hascii c hc
  have hlen2 : ("rclone-mounter-" ++ v.ID).data.length = 15 + v.ID.length := by
    rw [String.data_append, List.length_append]
    rfl
  have htake : ∀ c ∈ (("rclone-mounter-" ++ v.ID).data.take 63), c.toNat < 128 :=
    fun c hc => hall c (List.mem_of_mem_take hc)
  simp only [RcloneVolume.deploymentName, stringsToLower, String.length_mk, List.length_map,
    utf8Bytes]
  rw [utf8_ascii _ hall, ← List.map_take]
  split_ifs with h
  · rw [rangeRunes_ascii _ htake, List.length_take]
    omega
  · rw [rangeRunes_ascii _ hall]
    rw [List.length_map] at h
    omega

/-- C7, as amended: for every volume ID, non-ASCII ones included, the deployment name has at most
63 characters and, `unicode.ToLower` mapping its own values to themselves, lowercasing the name
again gives the name back; for every ID of 100 ASCII characters the name has exactly 63
characters. -/
theorem deploymentName_lowercase_bounded (table : Char → Char) (v : RcloneVolume) :
    (v.deploymentName table).length ≤ 63
    ∧ ((∀ c, unicodeToLower table (unicodeToLower table c) = unicodeToLower table c) →
        stringsToLower table (utf8Bytes (v.deploymentName table)) = v.deploymentName table)
    ∧ ((∀ c ∈ v.ID.data, c.toNat < 128) → v.ID.length = 100 →
        (v.deploymentName table).length = 63) := by
  refine ⟨deploymentName_length_le table v, ?_, ?_⟩
  · intro hidem
    exact stringsToLower_idem table hidem _
  · intro hascii hlen
    exact deploymentName_ascii_length table v hascii (by omega)

set_option maxRecDepth 100000 in
/-- C7, witness: the ID of one hundred letters `A`, with no case mapping beyond ASCII. -/
theorem deploymentName_lowercase_bounded_witness :
    (RcloneVolume.deploymentName id { ID := String.mk (List.replicate 100 (Char.ofNat 65)) }).length ≤ 63
    ∧ stringsToLower id (utf8Bytes
        (RcloneVolume.deploymentName id { ID := String.mk (List.replicate 100 (Char.ofNat 65)) }))
      = RcloneVolume.deploymentName id { ID := String.mk (List.replicate 100 (Char.ofNat 65)) }
    ∧ (RcloneVolume.deploymentName id { ID := String.mk (List.replicate 100 (Char.ofNat 65)) }).length = 63
    ∧ RcloneVolume.deploymentName id { ID := String.mk (List.replicate 100 (Char.ofNat 65)) }
      = "rclone-mounter-" ++ String.mk (List.replicate 48 (Char.ofNat 97)) :=
  ⟨(deploymentName_lowercase_bounded id _).1,
   (deploymentName_lowercase_bounded id _).2.1 unicodeToLower_id_idem,
   (deploymentName_lowercase_bounded id _).2.2 (by decide) (by decide),
   by decide⟩

theorem unicodeToLower_agree (table : Char → Char) (c : Char)
    (h : c.toNat ≤ 0x7F ∨ table c = c) : unicodeToLower table c = unicodeToLower id c := by
  unfold unicodeToLower
  by_cases h1 : c.toNat ≤ 0x7F
  · simp only [if_pos h1]
  · rcases h with h | h
    · exact absurd h h1
    · simp only [if_neg h1, h, id]

set_option maxRecDepth 100000 in
/-- C7, counterexample. Counting characters: the ID of one hundred letters `é` (U+00E9, two bytes
each) has 100 characters and its deployment name has 39, whatever the case table, because the cut
at byte 63 leaves the 15 characters of the fixed part and 24 of the ID. Counting bytes: the ID
`a`, forty-nine `é`, `a` has 100 bytes and the cut at byte 63 splits an `é`, whose first byte
is written as U+FFFD, so that the name has 65 bytes (for every case table that, like Unicode's,
leaves `é` and U+FFFD as they are). -/
theorem deploymentName_not_63_characters :
    ((String.mk (List.replicate 100 (Char.ofNat 0xE9))).length = 100
      ∧ ∀ table : Char → Char,
        (RcloneVolume.deploymentName table
          { ID := String.mk (List.replicate 100 (Char.ofNat 0xE9)) }).length = 39)
    ∧ ((utf8Bytes (String.mk
          (Char.ofNat 97 :: List.replicate 49 (Char.ofNat 0xE9) ++ [Char.ofNat 97]))).length = 100
      ∧ ∀ table : Char → Char, table (Char.ofNat 0xE9) = Char.ofNat 0xE9 →
        table (Char.ofNat 0xFFFD) = Char.ofNat 0xFFFD →
        (utf8Bytes (RcloneVolume.deploymentName table
          { ID := String.mk
              (Char.ofNat 97 :: List.replicate 49 (Char.ofNat 0xE9) ++ [Char.ofNat 97]) })).length
          = 65) := by
  refine ⟨⟨by decide, fun table => ?_⟩, by decide, fun table h1 h2 => ?_⟩
  · simp only [RcloneVolume.deploymentName, stringsToLower, String.length_mk, List.length_map]
    decide
  · have hrunes : ∀ c ∈ rangeRunes 0
        (if (utf8Bytes ("rclone-mounter-" ++ String.mk
              (Char.ofNat 97 :: List.replicate 49 (Char.ofNat 0xE9) ++ [Char.ofNat 97]))).length > 63
          then (utf8Bytes ("rclone-mounter-" ++ String.mk
              (Char.ofNat 97 :: List.replicate 49 (Char.ofNat 0xE9) ++ [Char.ofNat 97]))).take 63
          else utf8Bytes ("rclone-mounter-" ++ String.mk
              (Char.ofNat 97 :: List.replicate 49 (Char.ofNat 0xE9) ++ [Char.ofNat 97]))),
        c.toNat ≤ 0x7F ∨ c = Char.ofNat 0xE9 ∨ c = Char.ofNat 0xFFFD := by
      decide
    have hsame : RcloneVolume.deploymentName table
          { ID := String.mk
              (Char.ofNat 97 :: List.replicate 49 (Char.ofNat 0xE9) ++ [Char.ofNat 97]) }
        = RcloneVolume.deploymentName id
          { ID := String.mk
              (Char.ofNat 97 :: List.replicate 49 (Char.ofNat 0xE9) ++ [Char.ofNat 97]) } := by
      simp only [RcloneVolume.deploymentName, stringsToLower]
      congr 1
      apply List.map_congr_left
      intro c hc
      apply unicodeToLower_agree
      rcases hrunes c hc with h | h | h
      · exact Or.inl h
      · exact Or.inr (by rw [h]; exact h1)
      · exact Or.inr (by rw [h]; exact h2)
    rw [hsame]
    decide

/-! ### `Mount`: the VFS options -/

theorem VfsOpt.get_kind (o : VfsOpt) (f : VfsField) :
    (o.get f).kind = (({} : VfsOpt).get f).kind := by
  cases f <;> rfl

theorem literalStore_kind (field goType : String) (d x : FieldValue) (j : JValue)
    (h : literalStore field goType d j = .ok x) : x.kind = d.kind := by
  cases j <;> cases d <;> simp only [literalStore] at h
  all_goals first
    | (cases h; rfl)
    | exact Except.noConfusion h
    | (split at h <;> first | (cases h; rfl) | exact Except.noConfusion h)

theorem literalStore_dst (field goType : String) (d1 d2 : FieldValue) (j : JValue)
    (hj : j.isNull = false) (hk : d1.kind = d2.kind) :
    literalStore field goType d1 j = literalStore field goType d2 j := by
  cases j <;> cases d1 <;> cases d2 <;>
    first
    | rfl
    | (solve
        | simp [JValue.isNull] at hj
        | simp [FieldValue.kind] at hk)

theorem VfsOpt.get_set_same (o : VfsOpt) (f : VfsField) (x : FieldValue)
    (h : x.kind = (o.get f).kind) : (o.set f x).get f = x := by
  cases f <;> cases x <;> first | rfl | (solve | simp [FieldValue.kind, VfsOpt.get] at h)

theorem VfsOpt.get_set_ne (o : VfsOpt) (f g : VfsField) (x : FieldValue) (h : g ≠ f) :
    (o.set f x).get g = o.get g := by
  cases f <;> cases x <;> cases g <;> first | rfl | exact absurd rfl h

theorem VfsOpt.store_spec (o o1 : VfsOpt) (f : VfsField) (v : JValue)
    (h : o.store f v = .ok o1) :
    (∀ g, g ≠ f → o1.get g = o.get g)
    ∧ literalStore ("VfsOpt." ++ f.name) f.goType (o.get f) v = .ok (o1.get f) := by
  unfold VfsOpt.store at h
  cases hl : literalStore ("VfsOpt." ++ f.name) f.goType (o.get f) v with
  | error err => rw [hl] at h; cases h
  | ok x =>
    rw [hl] at h
    simp only [Except.map] at h
    cases h
    have hk := literalStore_kind _ _ _ _ _ hl
    exact ⟨fun g hg => VfsOpt.get_set_ne o f g x hg, by rw [VfsOpt.get_set_same o f x hk]⟩

theorem literalStore_null (field goType : String) (d : FieldValue) (j : JValue)
    (hj : j.isNull = true) : literalStore field goType d j = .ok d := by
  cases j <;> first | rfl | (solve | simp [JValue.isNull] at hj)

/-- One member of the override: the field it names with a value other than `null` holds that
value afterwards, every other field holds what it held. -/
theorem storeMember_vfs (o o1 : VfsOpt) (kv : String × JValue)
    (h : storeMember (findField VfsField.names) VfsOpt.store o kv = .ok o1) (f : VfsField) :
    if (decide (findField VfsField.names kv.1 = some f) && !kv.2.isNull) = true then
      literalStore ("VfsOpt." ++ f.name) f.goType (({} : VfsOpt).get f) kv.2 = .ok (o1.get f)
    else o1.get f = o.get f := by
  unfold storeMember at h
  cases hf : findField VfsField.names kv.1 with
  | none =>
    rw [hf] at h
    cases h
    simp
  | some g =>
    rw [hf] at h
    obtain ⟨hother, hsame⟩ := VfsOpt.store_spec o o1 g kv.2 h
    by_cases hgf : g = f
    · subst hgf
      cases hn : kv.2.isNull with
      | true =>
        rw [literalStore_null _ _ _ _ hn] at hsame
        have heq : o.get g = o1.get g := Except.ok.inj hsame
        simp [heq]
      | false =>
        rw [literalStore_dst _ _ _ (({} : VfsOpt).get g) _ hn (VfsOpt.get_kind o g)] at hsame
        simpa using hsame
    · have hfg : f ≠ g := fun e => hgf e.symm
      have : ¬ (some g = some f) := fun e => hgf (Option.some.inj e)
      simp [this, hother f hfg]

theorem getLast?_filter_cons {α : Type} (p : α → Bool) (a : α) (l : List α) :
    ((a :: l).filter p).getLast?
      = match (l.filter p).getLast? with
        | some x => some x
        | none => if p a = true then some a else none := by
  by_cases hp : p a = true
  · rw [List.filter_cons_of_pos hp, List.getLast?_cons]
    cases (l.filter p).getLast? <;> simp [hp]
  · rw [List.filter_cons_of_neg hp]
    cases (l.filter p).getLast? <;> simp [hp]

/-- The members of the override, stored in order: a field the override specifies holds the
specified value, any other field holds what it held before. -/
theorem foldlM_vfs (members : List (String × JValue)) (o o2 : VfsOpt)
    (h : members.foldlM (storeMember (findField VfsField.names) VfsOpt.store) o = .ok o2)
    (f : VfsField) :
    match specified members f with
    | none => o2.get f = o.get f
    | some j =>
      literalStore ("VfsOpt." ++ f.name) f.goType (({} : VfsOpt).get f) j = .ok (o2.get f) := by
  induction members generalizing o with
  | nil =>
    simp [pure, Except.pure] at h
    simp [specified, h]
  | cons kv rest ih =>
    rw [List.foldlM_cons] at h
    cases hs : storeMember (findField VfsField.names) VfsOpt.store o kv with
    | error err => rw [hs] at h; cases h
    | ok o1 =>
      rw [hs] at h
      have ih1 := ih o1 h
      have hstep := storeMember_vfs o o1 kv hs f
      unfold specified at ih1 ⊢
      rw [getLast?_filter_cons]
      cases hl : (rest.filter
          (fun kv => decide (findField VfsField.names kv.1 = some f) && !kv.2.isNull)).getLast? with
      | some x =>
        rw [hl] at ih1
        simpa using ih1
      | none =>
        rw [hl] at ih1
        simp only [Option.map] at ih1
        by_cases hp : (decide (findField VfsField.names kv.1 = some f) && !kv.2.isNull) = true
        · rw [if_pos hp] at hstep
          simp only [hp, if_true, Option.map]
          rw [ih1]
          exact hstep
        · rw [if_neg hp] at hstep
          simp only [hp, if_false, Option.map]
          rw [ih1]
          exact hstep

/-- A POST of `Mount` to the mount endpoint carries the options built from the two parameters. -/
theorem Mount_mount_request (env : Env) (r : Rclone) (rcloneVolume : RcloneVolume)
    (targetPath rcloneConfigData : String) (readOnly : Bool) (parameters : GoMap)
    (call : HttpCall) (req : MountRequest)
    (hsent : call ∈ (Mount env r rcloneVolume targetPath rcloneConfigData readOnly parameters).calls)
    (hbody : call.body = .mount req) :
    ∃ vfs mo,
      (if mapGet parameters "vfsOpt" ≠ "" then
          jsonUnmarshal env.jsonScan
            (jsonObject "rclone.VfsOpt" (findField VfsField.names) VfsOpt.store)
            (mapGet parameters "vfsOpt") { CacheMode := "writes", DirCacheTime := "60s" }
        else .ok { CacheMode := "writes", DirCacheTime := "60s" }) = .ok vfs
      ∧ (if mapGet parameters "mountOpt" ≠ "" then
          env.unmarshalMountOpt (mapGet parameters "mountOpt")
            { AllowNonEmpty := true, AllowOther := true }
        else .ok { AllowNonEmpty := true, AllowOther := true }) = .ok mo
      ∧ req = { Fs := rcloneVolume.deploymentName env.lowerTable ++ ":" ++ rcloneVolume.RemotePath,
                MountPoint := targetPath,
                VfsOpt := { vfs with ReadOnly := readOnly, DiskSpaceTotalSize := r.cacheSize },
                MountOpt := mo } := by
  simp only [Mount] at hsent
  repeat' (split at hsent)
  all_goals simp only [List.mem_cons, List.mem_singleton, List.not_mem_nil, or_false] at hsent
  all_goals first
    | exact hsent.elim
    | (solve | (subst hsent; simp at hbody))
    | (rcases hsent with h | h
       · subst h; simp at hbody
       · subst h
         have hreq := RequestBody.mount.inj hbody
         subst hreq
         refine ⟨_, _, ?_, ?_, rfl⟩ <;> assumption)

/-- C5: in every POST of `Mount` to the mount endpoint, `ReadOnly` is the `readOnly` argument and
`DiskSpaceTotalSize` is the configured cache size, whatever the override holds; every other field
of `VfsOpt` that the `vfsOpt` override specifies holds the specified value, and every other field
that it does not specify holds its default (`CacheMode` "writes", `DirCacheTime` "60s", the zero
value otherwise); and without a `mountOpt` parameter `MountOpt` has `AllowNonEmpty` and
`AllowOther` set and nothing else. -/
theorem Mount_vfsOpt_layered (env : Env) (r : Rclone) (rcloneVolume : RcloneVolume)
    (targetPath rcloneConfigData : String) (readOnly : Bool) (parameters : GoMap)
    (call : HttpCall) (req : MountRequest)
    (hsent : call ∈ (Mount env r rcloneVolume targetPath rcloneConfigData readOnly parameters).calls)
    (hbody : call.body = .mount req) :
    req.VfsOpt.ReadOnly = readOnly
    ∧ req.VfsOpt.DiskSpaceTotalSize = r.cacheSize
    ∧ (∀ f, f ≠ .ReadOnly → f ≠ .DiskSpaceTotalSize →
        match specified (vfsOverride env parameters) f with
        | none =>
          req.VfsOpt.get f = ({ CacheMode := "writes", DirCacheTime := "60s" } : VfsOpt).get f
        | some j =>
          literalStore ("VfsOpt." ++ f.name) f.goType (({} : VfsOpt).get f) j
            = .ok (req.VfsOpt.get f))
    ∧ (mapGet parameters "mountOpt" = "" →
        req.MountOpt = { AllowNonEmpty := true, AllowOther := true }) := by
  obtain ⟨vfs, mo, hvfs, hmo, rfl⟩ :=
    Mount_mount_request env r rcloneVolume targetPath rcloneConfigData readOnly parameters
      call req hsent hbody
  refine ⟨rfl, rfl, ?_, ?_⟩
  · intro f h1 h2
    have hget : ({ vfs with ReadOnly := readOnly, DiskSpaceTotalSize := r.cacheSize } : VfsOpt).get f
        = vfs.get f := by
      cases f <;> first | rfl | exact absurd rfl h1 | exact absurd rfl h2
    simp only [hget]
    unfold vfsOverride
    by_cases hs : mapGet parameters "vfsOpt" = ""
    · rw [if_pos hs]
      rw [if_neg (not_not.mpr hs)] at hvfs
      have hv := Except.ok.inj hvfs
      subst hv
      simp [specified]
    · rw [if_neg hs]
      rw [if_pos hs] at hvfs
      unfold jsonUnmarshal at hvfs
      cases hscan : env.jsonScan (mapGet parameters "vfsOpt") with
      | error e => rw [hscan] at hvfs; exact Except.noConfusion hvfs
      | ok v =>
        rw [hscan] at hvfs
        cases v with
        | null =>
          have hv := Except.ok.inj hvfs
          subst hv
          simp [specified]
        | obj members => exact foldlM_vfs members _ vfs hvfs f
        | bool b => exact Except.noConfusion hvfs
        | num lit => exact Except.noConfusion hvfs
        | str t => exact Except.noConfusion hvfs
        | arr items => exact Except.noConfusion hvfs
  · intro hm
    rw [if_neg (not_not.mpr hm)] at hmo
    exact (Except.ok.inj hmo).symm

/-! ### `Mount`: its errors -/

/-- C10, as amended: at every step but the making of the target directory, the error `Mount`
returns is built from the underlying error and the text of that step. A failure to load the
config gives a new error whose text is `mounting failed: couldn't load config ` and the
underlying message (the verb is `%s`: the underlying error is not wrapped); a wrong number of
sections gives `Mounting failed: expected only one config section: `, with a capital, and the
section names; a failure to send or to check the config request or the mount request wraps the
underlying error after `mounting failed: ` and the step; a failure to parse the `vfsOpt` or the
`mountOpt` override wraps the underlying error after `could not parse vfsOpt: ` or
`could not parse mountOpt: `, which name the step and not the operation; and when no step fails
`Mount` returns no error. Of a failure to make the target directory nothing is said. -/
theorem Mount_error_by_step (env : Env) (r : Rclone) (rcloneVolume : RcloneVolume)
    (targetPath rcloneConfigData : String) (readOnly : Bool) (parameters : GoMap) :
    (∀ err, env.iniLoad rcloneConfigData = .error err →
      (Mount env r rcloneVolume targetPath rcloneConfigData readOnly parameters).err
        = some (.errorf ("mounting failed: couldn't load config " ++ err.Error)))
    ∧ (∀ cfg, env.iniLoad rcloneConfigData = .ok cfg → cfg.named.length ≠ 1 →
      (Mount env r rcloneVolume targetPath rcloneConfigData readOnly parameters).err
        = some (.errorf ("Mounting failed: expected only one config section: "
            ++ fmtStrings cfg.SectionStrings)))
    ∧ (∀ cfg sec, env.iniLoad rcloneConfigData = .ok cfg → cfg.named = [sec] →
      (∀ err, env.httpPost (createCall env r rcloneVolume cfg sec).url
            (createCall env r rcloneVolume cfg sec).body = .error err →
        (Mount env r rcloneVolume targetPath rcloneConfigData readOnly parameters).err
          = some (.wrapped "mounting failed: couldn't send HTTP request to create config: " err))
      ∧ (∀ resp err, env.httpPost (createCall env r rcloneVolume cfg sec).url
            (createCall env r rcloneVolume cfg sec).body = .ok resp →
          (checkResponse env.jsonScan env.printTable resp).err = some err →
        (Mount env r rcloneVolume targetPath rcloneConfigData readOnly parameters).err
          = some (.wrapped "mounting failed: couldn't create config: " err))
      ∧ (∀ resp, env.httpPost (createCall env r rcloneVolume cfg sec).url
            (createCall env r rcloneVolume cfg sec).body = .ok resp →
          (checkResponse env.jsonScan env.printTable resp).err = none →
        (∀ err, vfsOptParsed env parameters = .error err →
          (Mount env r rcloneVolume targetPath rcloneConfigData readOnly parameters).err
            = some (.wrapped "could not parse vfsOpt: " err))
        ∧ (∀ vfsOpt, vfsOptParsed env parameters = .ok vfsOpt →
          (∀ err, mountOptParsed env parameters = .error err →
            (Mount env r rcloneVolume targetPath rcloneConfigData readOnly parameters).err
              = some (.wrapped "could not parse mountOpt: " err))
          ∧ (∀ mountOpt, mountOptParsed env parameters = .ok mountOpt →
              env.mkdirAll targetPath = none →
            (∀ err, env.httpPost
                  (mountCall env r rcloneVolume targetPath readOnly vfsOpt mountOpt).url
                  (mountCall env r rcloneVolume targetPath readOnly vfsOpt mountOpt).body
                  = .error err →
              (Mount env r rcloneVolume targetPath rcloneConfigData readOnly parameters).err
                = some (.wrapped
                    "mounting failed: couldn't send HTTP request to create mount: " err))
            ∧ (∀ resp2 err, env.httpPost
                  (mountCall env r rcloneVolume targetPath readOnly vfsOpt mountOpt).url
                  (mountCall env r rcloneVolume targetPath readOnly vfsOpt mountOpt).body
                  = .ok resp2 →
                (checkResponse env.jsonScan env.printTable resp2).err = some err →
              (Mount env r rcloneVolume targetPath rcloneConfigData readOnly parameters).err
                = some (.wrapped "mounting failed: couldn't create mount: " err))
            ∧ (∀ resp2, env.httpPost
                  (mountCall env r rcloneVolume targetPath readOnly vfsOpt mountOpt).url
                  (mountCall env r rcloneVolume targetPath readOnly vfsOpt mountOpt).body
                  = .ok resp2 →
                (checkResponse env.jsonScan env.printTable resp2).err = none →
              (Mount env r rcloneVolume targetPath rcloneConfigData readOnly parameters).err
                = none))))) := by
  refine ⟨?_, ?_, ?_⟩
  · intro err hload
    simp only [Mount, hload]
  · intro cfg hload hcount
    rcases hn : cfg.named with _ | ⟨a, _ | ⟨b, rest⟩⟩
    · simp only [Mount, hload, IniFile.Sections, hn]
    · simp [hn] at hcount
    · simp only [Mount, hload, IniFile.Sections, hn]
  · intro cfg sec hload hnamed
    simp only [createCall, vfsOptParsed, mountOptParsed, mountCall]
    refine ⟨?_, ?_, ?_⟩
    · intro err hpost
      simp only [Mount, hload, IniFile.Sections, hnamed, hpost]
    · intro resp err hpost hchk
      simp only [Mount, hload, IniFile.Sections, hnamed, hpost, hchk]
    · intro resp hpost hchk
      refine ⟨?_, ?_⟩
      · intro err hvfs
        simp only [Mount, hload, IniFile.Sections, hnamed, hpost, hchk, hvfs]
      · intro vfsOpt hvfs
        refine ⟨?_, ?_⟩
        · intro err hmo
          simp only [Mount, hload, IniFile.Sections, hnamed, hpost, hchk, hvfs, hmo]
        · intro mountOpt hmo hdir
          refine ⟨?_, ?_, ?_⟩
          · intro err hpost2
            simp only [Mount, hload, IniFile.Sections, hnamed, hpost, hchk, hvfs, hmo, hdir, hpost2]
          · intro resp2 err hpost2 hchk2
            simp only [Mount, hload, IniFile.Sections, hnamed, hpost, hchk, hvfs, hmo, hdir, hpost2,
              hchk2]
          · intro resp2 hpost2 hchk2
            simp only [Mount, hload, IniFile.Sections, hnamed, hpost, hchk, hvfs, hmo, hdir, hpost2,
              hchk2]

/-- C10, witness: one run of `Mount` for each step, on the connection text of the scenarios:
the load fails; the text has two named sections; the config request cannot be sent; it is
answered with status 500; the `vfsOpt` parameter is not JSON; the `mountOpt` parameter is
refused; the mount request cannot be sent; it is answered with status 500; nothing fails. -/
theorem Mount_error_by_step_witness :
    (Mount (stepEnv (.error (.external "unclosed section: [remote1" false)) (.ok answer200)
        (.ok answer200) (.ok plainMountOpt) none)
        scenarioRclone scenarioVolume "/mnt/vol-1" "[remote1" false []).err
      = some (.errorf ("mounting failed: couldn't load config "
          ++ (GoError.external "unclosed section: [remote1" false).Error))
    ∧ (Mount (stepEnv (.ok twoRemotesFile) (.ok answer200) (.ok answer200) (.ok plainMountOpt) none)
        scenarioRclone scenarioVolume "/mnt/vol-1" scenarioConfig false []).err
      = some (.errorf ("Mounting failed: expected only one config section: "
          ++ fmtStrings twoRemotesFile.SectionStrings))
    ∧ (Mount (stepEnv (.ok remote1File) (.error refused) (.ok answer200) (.ok plainMountOpt) none)
        scenarioRclone scenarioVolume "/mnt/vol-1" scenarioConfig false []).err
      = some (.wrapped "mounting failed: couldn't send HTTP request to create config: " refused)
    ∧ (Mount (stepEnv (.ok remote1File) (.ok answer500) (.ok answer200) (.ok plainMountOpt) none)
        scenarioRclone scenarioVolume "/mnt/vol-1" scenarioConfig false []).err
      = some (.wrapped "mounting failed: couldn't create config: "
          (.errorf "could not unmarshal the error response from the rclone server"))
    ∧ (Mount (stepEnv (.ok remote1File) (.ok answer200) (.ok answer200) (.ok plainMountOpt) none)
        scenarioRclone scenarioVolume "/mnt/vol-1" scenarioConfig false [("vfsOpt", "\x7b")]).err
      = some (.wrapped "could not parse vfsOpt: "
          (.external "unexpected end of JSON input" false))
    ∧ (Mount (stepEnv (.ok remote1File) (.ok answer200) (.ok answer200)
          (.error (.external "unexpected end of JSON input" false)) none)
        scenarioRclone scenarioVolume "/mnt/vol-1" scenarioConfig false [("mountOpt", "\x7b")]).err
      = some (.wrapped "could not parse mountOpt: "
          (.external "unexpected end of JSON input" false))
    ∧ (Mount (stepEnv (.ok remote1File) (.ok answer200) (.error refused) (.ok plainMountOpt) none)
        scenarioRclone scenarioVolume "/mnt/vol-1" scenarioConfig false []).err
      = some (.wrapped "mounting failed: couldn't send HTTP request to create mount: " refused)
    ∧ (Mount (stepEnv (.ok remote1File) (.ok answer200) (.ok answer500) (.ok plainMountOpt) none)
        scenarioRclone scenarioVolume "/mnt/vol-1" scenarioConfig false []).err
      = some (.wrapped "mounting failed: couldn't create mount: "
          (.errorf "could not unmarshal the error response from the rclone server"))
    ∧ (Mount (stepEnv (.ok remote1File) (.ok answer200) (.ok answer200) (.ok plainMountOpt) none)
        scenarioRclone scenarioVolume "/mnt/vol-1" scenarioConfig false []).err
      = none :=
  ⟨(Mount_error_by_step _ scenarioRclone scenarioVolume "/mnt/vol-1" "[remote1" false []).1
      (.external "unclosed section: [remote1" false) rfl,
   (Mount_error_by_step _ scenarioRclone scenarioVolume "/mnt/vol-1" scenarioConfig false []).2.1
      twoRemotesFile rfl (by decide),
   ((Mount_error_by_step _ scenarioRclone scenarioVolume "/mnt/vol-1" scenarioConfig false []).2.2
      remote1File remote1 rfl rfl).1 refused rfl,
   ((Mount_error_by_step _ scenarioRclone scenarioVolume "/mnt/vol-1" scenarioConfig false []).2.2
      remote1File remote1 rfl rfl).2.1 answer500 _ rfl rfl,
   (((Mount_error_by_step _ scenarioRclone scenarioVolume "/mnt/vol-1" scenarioConfig false
      [("vfsOpt", "\x7b")]).2.2 remote1File remote1 rfl rfl).2.2 answer200 rfl rfl).1 _ rfl,
   ((((Mount_error_by_step _ scenarioRclone scenarioVolume "/mnt/vol-1" scenarioConfig false
      [("mountOpt", "\x7b")]).2.2 remote1File remote1 rfl rfl).2.2 answer200 rfl rfl).2
        { CacheMode := "writes", DirCacheTime := "60s" } rfl).1 _ rfl,
   (((((Mount_error_by_step _ scenarioRclone scenarioVolume "/mnt/vol-1" scenarioConfig false
      []).2.2 remote1File remote1 rfl rfl).2.2 answer200 rfl rfl).2
        { CacheMode := "writes", DirCacheTime := "60s" } rfl).2 plainMountOpt rfl rfl).1 refused rfl,
   (((((Mount_error_by_step _ scenarioRclone scenarioVolume "/mnt/vol-1" scenarioConfig false
      []).2.2 remote1File remote1 rfl rfl).2.2 answer200 rfl rfl).2
        { CacheMode := "writes", DirCacheTime := "60s" } rfl).2 plainMountOpt rfl rfl).2.1
        answer500 _ rfl rfl,
   (((((Mount_error_by_step _ scenarioRclone scenarioVolume "/mnt/vol-1" scenarioConfig false
      []).2.2 remote1File remote1 rfl rfl).2.2 answer200 rfl rfl).2
        { CacheMode := "writes", DirCacheTime := "60s" } rfl).2 plainMountOpt rfl rfl).2.2
        answer200 rfl rfl⟩

/-- C10, counterexample. A `vfsOpt` parameter that is not JSON: the message of the error is
`could not parse vfsOpt: unexpected end of JSON input`. A connection text with two named
sections: the message begins with `Mounting failed`, with a capital. A target directory that
cannot be made: `Mount` returns the error of `os.MkdirAll` as it is, with the message
`mkdir /mnt/vol-1: not a directory`. None of the three messages begins with `mounting failed`. -/
theorem Mount_errors_without_operation :
    ((Mount (scenarioEnv remote1File) scenarioRclone scenarioVolume "/mnt/vol-1" scenarioConfig
        false [("vfsOpt", "\x7b")]).err
      = some (.wrapped "could not parse vfsOpt: " (.external "unexpected end of JSON input" false))
    ∧ (GoError.wrapped "could not parse vfsOpt: "
        (.external "unexpected end of JSON input" false)).Error
      = "could not parse vfsOpt: unexpected end of JSON input"
    ∧ ¬ ("mounting failed".data <+: "could not parse vfsOpt: unexpected end of JSON input".data))
    ∧ ((Mount (scenarioEnv twoRemotesFile) scenarioRclone scenarioVolume "/mnt/vol-1"
        scenarioConfig false []).err
      = some (.errorf "Mounting failed: expected only one config section: [DEFAULT remote1 remote2]")
    ∧ ¬ ("mounting failed".data
        <+: "Mounting failed: expected only one config section: [DEFAULT remote1 remote2]".data))
    ∧ ((Mount (stepEnv (.ok remote1File) (.ok answer200) (.ok answer200) (.ok plainMountOpt)
          (some notADirectory))
        scenarioRclone scenarioVolume "/mnt/vol-1" scenarioConfig false []).err
      = some notADirectory
    ∧ notADirectory.Error = "mkdir /mnt/vol-1: not a directory"
    ∧ ¬ ("mounting failed".data <+: "mkdir /mnt/vol-1: not a directory".data)) := by
  refine ⟨⟨by decide, by decide, by decide⟩, ⟨by decide, by decide⟩,
    ⟨by decide, by decide, by decide⟩⟩

/-! ### `GetVolumeById`: the referenced secret -/

theorem scan_ignores_referenced_secret {σ : Type} (k : Cluster σ)
    (g : String → String → Option Secret × Option GoError) (volumeId : String)
    (pvs : List PersistentVolume) :
    GetVolumeById.scan { k with getSecretObject := g } volumeId pvs
      = GetVolumeById.scan k volumeId pvs := by
  induction pvs with
  | nil => rfl
  | cons pv rest ih =>
    unfold GetVolumeById.scan
    rw [ih]

/-- C8, the defect: what the referenced secret holds never reaches `extractFlags`. Whatever the
cluster answers for the referenced secret, `GetVolumeById` returns the same; and for the volume
`vol-1` of `secretCluster`, whose secret is read and holds a remote and a path, the probe standing
for `extractFlags` finds neither in the secrets map it is handed. -/
theorem GetVolumeById_drops_referenced_secret :
    (∀ (σ : Type) (k : Cluster σ) (g : String → String → Option Secret × Option GoError)
        (volumeId : String),
        GetVolumeById { k with getSecretObject := g } volumeId = GetVolumeById k volumeId)
    ∧ referencedSecretEntries secretCluster (some { Name := "vol-1-secret", Namespace := "storage" })
        = [("remote", "remote1"), ("remotePath", "data")]
    ∧ GetVolumeById secretCluster "vol-1"
        = some (some { Remote := "", RemotePath := "", ID := "vol-1" }, none) := by
  refine ⟨?_, by decide, by decide⟩
  intro σ k g volumeId
  unfold GetVolumeById
  simp only [scan_ignores_referenced_secret]

/-! ### The statements at the scenarios -/

/-- C1, witness: two bodies of a 500 answer that echo different passwords under `input`. -/
theorem checkResponse_redacts_input_witness :
    ¬ (200 ≤ (500 : Int) ∧ (500 : Int) < 300)
    ∧ scenarioScan (errorBody "hunter2") = .ok (errorTree "hunter2")
    ∧ scenarioScan (errorBody "swordfish") = .ok (errorTree "swordfish")
    ∧ ((checkResponse scenarioScan (fun _ => true)
          { StatusCode := 500, Body := some (errorBody "hunter2") }).err
        = some (.errorf ("received error from the rclone server: \x7b\"error\": "
            ++ Quote (fun _ => true) "couldn't find remote" ++ ", \"path\": "
            ++ Quote (fun _ => true) "mount/mount"
            ++ ", \"input\": \"<redacted>\", \"status\": 0\x7d"))
      ∧ checkResponse scenarioScan (fun _ => true)
          { StatusCode := 500, Body := some (errorBody "swordfish") }
        = checkResponse scenarioScan (fun _ => true)
          { StatusCode := 500, Body := some (errorBody "hunter2") }) :=
  ⟨by decide, rfl, rfl,
   checkResponse_redacts_input scenarioScan (fun _ => true) 500 (errorBody "hunter2")
     (errorBody "swordfish")
     [("error", .str "couldn't find remote"), ("input", .obj [("pass", .str "hunter2")]),
       ("path", .str "mount/mount"), ("status", .num "500")]
     [("error", .str "couldn't find remote"), ("input", .obj [("pass", .str "swordfish")]),
       ("path", .str "mount/mount"), ("status", .num "500")]
     { Error := "couldn't find remote", Path := "mount/mount" }
     (by decide) rfl rfl rfl rfl (by decide)⟩

/-- C3, witness: the section `[remote1]` with `type = s3` and `access_key_id = AAA`, and the
volume `vol-1`: the request is named `rclone-mounter-vol-1`, has type `s3` and the parameters
`access_key_id = AAA` and `config_refresh_token = false`. And the section `[DEFAULT.x]` with
`foo = bar` under a `DEFAULT` section with `type = s3`: the request has the inherited type `s3`
and the parameters `foo = bar` and `config_refresh_token = false`. -/
theorem Mount_create_config_request_witness :
    (scenarioEnv remote1File).iniLoad scenarioConfig
      = .ok { dflt := { name := "DEFAULT", keys := [] }, named := [remote1] }
    ∧ (Mount (scenarioEnv remote1File) scenarioRclone scenarioVolume "/mnt/vol-1" scenarioConfig
        true []).calls.head?
      = some { url := "http://localhost:5572/config/create",
               body := .configCreate
                 { Name := "rclone-mounter-vol-1", StorageType := "s3",
                   Parameters := [("access_key_id", "AAA"), ("config_refresh_token", "false")],
                   Opt := [("obscure", true)] } }
    ∧ (Mount (scenarioEnv inheritFile) scenarioRclone scenarioVolume "/mnt/vol-1" inheritConfig
        true []).calls.head?
      = some { url := "http://localhost:5572/config/create",
               body := .configCreate
                 { Name := "rclone-mounter-vol-1", StorageType := "s3",
                   Parameters := [("foo", "bar"), ("config_refresh_token", "false")],
                   Opt := [("obscure", true)] } }
    ∧ ∃ req rest,
      (Mount (scenarioEnv remote1File) scenarioRclone scenarioVolume "/mnt/vol-1" scenarioConfig
          true []).calls
        = { url := "http://localhost:" ++ toString scenarioRclone.port ++ "/config/create",
            body := .configCreate req } :: rest
      ∧ req.Name = scenarioVolume.deploymentName (scenarioEnv remote1File).lowerTable
      ∧ req.StorageType
          = remote1.Key { dflt := { name := "DEFAULT", keys := [] }, named := [remote1] } "type"
      ∧ (∀ v, mapGet? remote1.keys "type" = some v → req.StorageType = v)
      ∧ req.Opt = [("obscure", true)]
      ∧ ∀ k, mapGet? req.Parameters k
          = if k = "config_refresh_token" then some "false"
            else if k = "type" then none
            else mapGet? remote1.keys k :=
  ⟨rfl, by decide, by decide,
   Mount_create_config_request (scenarioEnv remote1File) scenarioRclone scenarioVolume
     "/mnt/vol-1" scenarioConfig true [] { name := "DEFAULT", keys := [] } remote1 rfl⟩

/-- C4, witness: a connection text with two named sections. -/
theorem Mount_refuses_section_count_witness :
    (scenarioEnv twoRemotesFile).iniLoad scenarioConfig = .ok twoRemotesFile
    ∧ twoRemotesFile.named.length ≠ 1
    ∧ (Mount (scenarioEnv twoRemotesFile) scenarioRclone scenarioVolume "/mnt/vol-1"
        scenarioConfig false []).err ≠ none
    ∧ (Mount (scenarioEnv twoRemotesFile) scenarioRclone scenarioVolume "/mnt/vol-1"
        scenarioConfig false []).calls = [] :=
  ⟨rfl, by decide,
   Mount_refuses_section_count (scenarioEnv twoRemotesFile) scenarioRclone scenarioVolume
     "/mnt/vol-1" scenarioConfig false [] twoRemotesFile rfl (by decide)⟩

/-- C5, witness: `Mount` called read-only without overrides sends `plainMountRequest`
(`CacheMode` "writes", `DirCacheTime` "60s", `ReadOnly` true, `AllowNonEmpty` and `AllowOther`
true); called read-only with `overrideText`, which asks for `ReadOnly` false, it sends
`overrideMountRequest`. -/
theorem Mount_vfsOpt_layered_witness :
    (({ url := "http://localhost:5572/mount/mount", body := .mount plainMountRequest } : HttpCall)
        ∈ (Mount (scenarioEnv remote1File) scenarioRclone scenarioVolume "/mnt/vol-1"
            scenarioConfig true []).calls
      ∧ ({ url := "http://localhost:5572/mount/mount", body := .mount overrideMountRequest } : HttpCall)
        ∈ (Mount (scenarioEnv remote1File) scenarioRclone scenarioVolume "/mnt/vol-1"
            scenarioConfig true [("vfsOpt", overrideText)]).calls)
    ∧ (plainMountRequest.VfsOpt.ReadOnly = true
      ∧ plainMountRequest.VfsOpt.DiskSpaceTotalSize = scenarioRclone.cacheSize
      ∧ (∀ f, f ≠ .ReadOnly → f ≠ .DiskSpaceTotalSize →
          match specified (vfsOverride (scenarioEnv remote1File) []) f with
          | none =>
            plainMountRequest.VfsOpt.get f
              = ({ CacheMode := "writes", DirCacheTime := "60s" } : VfsOpt).get f
          | some j =>
            literalStore ("VfsOpt." ++ f.name) f.goType (({} : VfsOpt).get f) j
              = .ok (plainMountRequest.VfsOpt.get f))
      ∧ (mapGet [] "mountOpt" = "" →
          plainMountRequest.MountOpt = { AllowNonEmpty := true, AllowOther := true }))
    ∧ (overrideMountRequest.VfsOpt.ReadOnly = true
      ∧ overrideMountRequest.VfsOpt.DiskSpaceTotalSize = scenarioRclone.cacheSize
      ∧ (∀ f, f ≠ .ReadOnly → f ≠ .DiskSpaceTotalSize →
          match specified (vfsOverride (scenarioEnv remote1File) [("vfsOpt", overrideText)]) f with
          | none =>
            overrideMountRequest.VfsOpt.get f
              = ({ CacheMode := "writes", DirCacheTime := "60s" } : VfsOpt).get f
          | some j =>
            literalStore ("VfsOpt." ++ f.name) f.goType (({} : VfsOpt).get f) j
              = .ok (overrideMountRequest.VfsOpt.get f))
      ∧ (mapGet [("vfsOpt", overrideText)] "mountOpt" = "" →
          overrideMountRequest.MountOpt = { AllowNonEmpty := true, AllowOther := true })) :=
  ⟨⟨by decide, by decide⟩,
   Mount_vfsOpt_layered (scenarioEnv remote1File) scenarioRclone scenarioVolume "/mnt/vol-1"
     scenarioConfig true []
     { url := "http://localhost:5572/mount/mount", body := .mount plainMountRequest }
     plainMountRequest (by decide) rfl,
   Mount_vfsOpt_layered (scenarioEnv remote1File) scenarioRclone scenarioVolume "/mnt/vol-1"
     scenarioConfig true [("vfsOpt", overrideText)]
     { url := "http://localhost:5572/mount/mount", body := .mount overrideMountRequest }
     overrideMountRequest (by decide) rfl⟩

/-- C6, witness: a daemon that unmounts and then refuses the connection for the config deletion
(`Unmount` returns no error after both POSTs), and a daemon that answers the unmount with status
500 (`Unmount` returns an error after that one POST). -/
theorem Unmount_decided_by_unmount_request_witness :
    (Unmount deleteFailsEnv scenarioRclone "vol-1" "/mnt/vol-1").err = none
    ∧ (Unmount deleteFailsEnv scenarioRclone "vol-1" "/mnt/vol-1").calls
      = [{ url := "http://localhost:5572/mount/unmount",
           body := .unmount { MountPoint := "/mnt/vol-1" } },
         { url := "http://localhost:5572/config/delete",
           body := .configDelete { Name := "rclone-mounter-vol-1" } }]
    ∧ (Unmount failingEnv scenarioRclone "vol-1" "/mnt/vol-1").err ≠ none
    ∧ (Unmount failingEnv scenarioRclone "vol-1" "/mnt/vol-1").calls
      = [{ url := "http://localhost:" ++ toString scenarioRclone.port ++ "/mount/unmount",
           body := .unmount { MountPoint := "/mnt/vol-1" } }] :=
  ⟨(Unmount_decided_by_unmount_request deleteFailsEnv scenarioRclone "vol-1" "/mnt/vol-1").1.mpr
      ⟨{ StatusCode := 200, Body := some "\x7b\x7d" }, rfl, by decide⟩,
   by decide, by decide,
   (Unmount_decided_by_unmount_request failingEnv scenarioRclone "vol-1" "/mnt/vol-1").2
      (by decide)⟩

/-- C9, witness: no volume of `secretCluster` has the handle `vol-2`. -/
theorem GetVolumeById_not_found_witness :
    secretCluster.listPersistentVolumes = .ok [{ CSI := none, ClaimRef := none }, volumeWithSecret]
    ∧ (∀ pv ∈ [({ CSI := none, ClaimRef := none } : PersistentVolume), volumeWithSecret],
        ∀ csi, pv.CSI = some csi → csi.VolumeHandle ≠ "vol-2")
    ∧ GetVolumeById secretCluster "vol-2" = some (none, some ErrVolumeNotFound) :=
  ⟨rfl, by decide,
   GetVolumeById_not_found secretCluster "vol-2" _ rfl (by decide)⟩

end CsiRclone
